import Mathlib

/-!
# Authentication flow of `components/SignInOrJoinFree.js`

A shallow embedding of the `SignInOrJoinFree` React component: its local state, the
handlers `switchForm`, `signIn`, `createProfile`, the form selection of `render`, and the
remote calls and navigations the handlers perform.

Modelling conventions.

* `this.setState(patch)` merges `patch` into the state record. React applies the patches of
  the handlers that run inside one batch when the batch ends, and until then `this.state` is
  the state the batch started with: `act` and `batch` model this, `step` is a batch that
  holds a single event, and the direct-style handlers are one invocation on its own, whose
  only read of `this.state` is the guard at its first line.
* An `async` handler is given twice: in direct style (`signIn`, `createProfile`), where the
  outcome of every awaited call is read from an `Api` value, and as a resumable computation
  (`signInStart`, `createProfileStart`, `resume`, `act`, `step`) in which every `await` is a
  suspension point, so that interleavings of several invocations can be stated.
* `checkUserExistence`, `signin` (from `lib/api`), `getWebsiteUrl` (from `lib/utils`),
  the `createUser` mutation, the router and `encodeURIComponent` are not part of the
  component: their results are parameters.
* Everything a handler does to the outside world is recorded, in order, as a list of `Effect`s.

The guards and the order of `SendMoneyToCollectiveBtn.onClick` and the mobile-menu handlers
of `TopBar` follow, each in a namespace of its own, under the same conventions.
-/

namespace SignInOrJoinFree

/-! ## JavaScript values and plain objects -/

/-- The JavaScript values that occur in the fields of the flow. -/
inductive Val where
  | undefined
  | null
  | bool (b : Bool)
  | str (s : String)
  deriving DecidableEq, Repr

/-- JavaScript truthiness, as used by `if (v)` and `v || w`. -/
def Val.truthy : Val → Bool
  | .undefined => false
  | .null => false
  | .bool b => b
  | .str s => decide (s ≠ "")

/-- A plain object: its own enumerable string keys with their values, in insertion order. -/
abbrev Obj := List (String × Val)

/-- The test `k in o`. -/
def hasKey (o : Obj) (k : String) : Bool :=
  o.any (fun p => decide (p.1 = k))

/-- The property read `o[k]`; a missing key reads as `undefined`. -/
def getProp (o : Obj) (k : String) : Val :=
  match o.find? (fun p => decide (p.1 = k)) with
  | some p => p.2
  | none => Val.undefined

/-- The assignment `o[k] = v`: an existing key keeps its place, a new key goes last. -/
def setProp (o : Obj) (k : String) (v : Val) : Obj :=
  if hasKey o k then o.map (fun p => if p.1 = k then (k, v) else p) else o ++ [(k, v)]

/-- The statement `delete o[k]`. -/
def deleteProp (o : Obj) (k : String) : Obj :=
  o.filter (fun p => decide (p.1 ≠ k))

/-- The list `Object.keys(o)`. -/
def objectKeys (o : Obj) : List String :=
  o.map Prod.fst

/-- The lodash function `pick(object, paths)`: a new object with those of `paths` that are
keys of `object`, in the order of `paths`, each with the value it has in `object`. -/
def pick (object : Obj) (paths : List String) : Obj :=
  paths.filterMap (fun k => if hasKey object k then some (k, getProp object k) else none)

/-- The expression `a || b` for an optional string `a` (absent or empty is falsy). -/
def optOr (a : Option String) (b : String) : String :=
  match a with
  | some s => if s = "" then b else s
  | none => b

/-- The expression `a || b` for strings. -/
def strOr (a b : String) : String :=
  if a = "" then b else a

/-! ## Props, state and environment -/

/-- The props read by the modelled code (`propTypes`, lines 43-76); an absent prop is `none`. -/
structure Props where
  redirect : Option String
  defaultEmail : Option String
  email : Option String
  disableSignup : Bool
  form : Option String
  defaultForm : Option String
  enforceTwoFactorAuthForLoggedInUser : Bool
  deriving DecidableEq, Repr

/-- The component state `this.state` (lines 80-87). -/
structure State where
  form : String
  error : Val
  submitting : Bool
  unknownEmailError : Bool
  email : String
  useRecoveryCodes : Option Bool
  deriving DecidableEq, Repr

/-- The part of `window.location` read by `getRedirectURL`. -/
structure Window where
  pathname : String
  search : String

/-- What the handlers read from outside the component state. -/
structure Env where
  props : Props
  window : Window
  encodeURIComponent : String → String
  websiteUrl : String

/-- A thrown value, seen through its `message` property (`none` when it has none). -/
structure Err where
  message : Option String
  deriving DecidableEq, Repr

/-- The response of the sign-in request, seen through its `redirect` property. -/
structure Response where
  redirect : Option String
  deriving DecidableEq, Repr

/-- How each awaited call settles: `Except.ok` for a resolved promise, `Except.error` for a
rejected one. -/
structure Api where
  checkUserExistence : String → Except Err Bool
  signin : String → String → String → Except Err Response
  createUser : Obj → Option Obj → String → String → Except Err Unit
  routerReplace : String → Except Err Unit
  routerPush : String → Obj → Except Err Unit

/-- The observable actions of the handlers. -/
inductive Effect where
  | checkUserExistence (email : String)
  | signin (email redirect websiteUrl : String)
  | createUser (user : Obj) (organization : Option Obj) (redirect websiteUrl : String)
  | routerReplace (url : String)
  | routerPush (pathname : String) (query : Obj)
  | scrollTo (x y : Nat)
  deriving DecidableEq, Repr

/-- The remote calls: existence check, sign-in request, create-user. -/
def Effect.isRemoteCall : Effect → Bool
  | .checkUserExistence _ => true
  | .signin _ _ _ => true
  | .createUser _ _ _ _ => true
  | _ => false

/-- The sign-in request. -/
def Effect.isSignInRequest : Effect → Bool
  | .signin _ _ _ => true
  | _ => false

/-- The navigations: `router.replace` and `router.push`. -/
def Effect.isNavigation : Effect → Bool
  | .routerReplace _ => true
  | .routerPush _ _ => true
  | _ => false

/-- The result of running a handler to completion. -/
structure Run where
  state : State
  effects : List Effect
  ret : Val
  deriving DecidableEq, Repr

/-- The state set up by the constructor (lines 78-88). -/
def initialState (props : Props) : State :=
  { form := optOr props.defaultForm "signin"
    error := Val.null
    submitting := false
    unknownEmailError := false
    email := optOr props.email (optOr props.defaultEmail "")
    useRecoveryCodes := none }

/-- The handler `switchForm` (lines 97-100). -/
def switchForm (s : State) (form : String) : State :=
  { s with form := form }

/-- The method `getRedirectURL` (lines 102-108). -/
def getRedirectURL (env : Env) : String :=
  let currentPath :=
    if env.window.search ≠ "" then env.window.pathname ++ env.window.search
    else env.window.pathname
  env.encodeURIComponent (strOr (optOr env.props.redirect currentPath) "/")

/-! ## `signIn` (lines 110-141) -/

/-- The `catch` block of `signIn` (line 138). -/
def signInCatch (s : State) (e : Err) : State :=
  { s with error := Val.str (optOr e.message "Server error"), submitting := false }

/-- The redirect chosen by `if (response.redirect)` (line 128): the `redirect` property when
it is truthy. -/
def redirectTarget (response : Response) : Option String :=
  match response.redirect with
  | some url => if url = "" then none else some url
  | none => none

/-- The navigation of `signIn` (lines 128-132). -/
def signInNavigation (email : String) (response : Response) : Effect :=
  match redirectTarget response with
  | some url => Effect.routerReplace url
  | none => Effect.routerPush "/signin/sent" [("email", Val.str email)]

/-- The settlement of a navigation. -/
def navigate (api : Api) : Effect → Except Err Unit
  | .routerReplace url => api.routerReplace url
  | .routerPush pathname query => api.routerPush pathname query
  | _ => Except.ok ()

/-- The handler `signIn`, run to completion. -/
def signIn (api : Api) (env : Env) (s : State) (email : String) : Run :=
  if s.submitting then
    { state := s, effects := [], ret := Val.bool false }
  else
    let s1 : State := { s with submitting := true, error := Val.null }
    let check := Effect.checkUserExistence email
    match api.checkUserExistence email with
    | .error e =>
      { state := signInCatch s1 e, effects := [check, Effect.scrollTo 0 0], ret := Val.undefined }
    | .ok false =>
      { state := { s1 with unknownEmailError := true, submitting := false }
        effects := [check], ret := Val.undefined }
    | .ok true =>
      let request := Effect.signin email (getRedirectURL env) env.websiteUrl
      match api.signin email (getRedirectURL env) env.websiteUrl with
      | .error e =>
        { state := signInCatch s1 e, effects := [check, request, Effect.scrollTo 0 0]
          ret := Val.undefined }
      | .ok response =>
        let nav := signInNavigation email response
        match navigate api nav with
        | .error e =>
          { state := signInCatch s1 e, effects := [check, request, nav, Effect.scrollTo 0 0]
            ret := Val.undefined }
        | .ok _ =>
          { state := s1, effects := [check, request, nav, Effect.scrollTo 0 0]
            ret := Val.undefined }

/-! ## `createProfile` (lines 143-174) -/

/-- The keys picked for the `user` argument (line 147). -/
def userFields : List String :=
  ["email", "name", "legalName", "newsletterOptIn"]

/-- The keys picked for the `organization` argument (line 148). -/
def organizationFields : List String :=
  ["orgName", "orgLegalName", "repositoryUrl", "twitterHandle", "website"]

/-- The `user` object of `createProfile` (line 147). -/
def createProfileUser (data : Obj) : Obj :=
  pick data userFields

/-- The `organization` value of `createProfile` (lines 148-155); `none` is `null`. -/
def createProfileOrganization (data : Obj) : Option Obj :=
  let organizationData := pick data organizationFields
  if (objectKeys organizationData).length > 0 then
    let o1 := setProp organizationData "name" (getProp organizationData "orgName")
    let o2 := setProp o1 "legalName" (getProp o1 "orgLegalName")
    let o3 := deleteProp o2 "orgName"
    some (deleteProp o3 "orgLegalName")
  else
    none

/-- The value of `error.message` for a caught `error`. -/
def errMessage (e : Err) : Val :=
  match e.message with
  | some m => Val.str m
  | none => Val.undefined

/-- The `catch` block of `createProfile` (line 171). -/
def createProfileCatch (s : State) (e : Err) : State :=
  { s with error := errMessage e, submitting := false }

/-- The navigation of `createProfile` (line 168). -/
def createProfileNavigation (user : Obj) : Effect :=
  Effect.routerPush "/signin/sent" [("email", getProp user "email")]

/-- The handler `createProfile`, run to completion. -/
def createProfile (api : Api) (env : Env) (s : State) (data : Obj) : Run :=
  if s.submitting then
    { state := s, effects := [], ret := Val.bool false }
  else
    let user := createProfileUser data
    let organization := createProfileOrganization data
    let s1 : State := { s with submitting := true, error := Val.null }
    let call := Effect.createUser user organization (getRedirectURL env) env.websiteUrl
    match api.createUser user organization (getRedirectURL env) env.websiteUrl with
    | .error e =>
      { state := createProfileCatch s1 e, effects := [call, Effect.scrollTo 0 0]
        ret := Val.undefined }
    | .ok _ =>
      let nav := createProfileNavigation user
      match navigate api nav with
      | .error e =>
        { state := createProfileCatch s1 e, effects := [call, nav, Effect.scrollTo 0 0]
          ret := Val.undefined }
      | .ok _ =>
        { state := s1, effects := [call, nav, Effect.scrollTo 0 0], ret := Val.undefined }

/-- The arguments `user` and `organization` of the create-user calls among `effects`. -/
def createUserCalls (effects : List Effect) : List (Obj × Option Obj) :=
  effects.filterMap fun
    | .createUser user organization _ _ => some (user, organization)
    | _ => none

/-! ## `render`: the displayed form (line 306) -/

/-- The value `displayedForm` of `render`: `this.props.form || this.state.form`. -/
def displayedForm (props : Props) (s : State) : String :=
  optOr props.form s.form

/-! ## The handlers as resumable computations

Every `await` of `signIn` and `createProfile` is a point where the handler is suspended and
other events of the component may run. -/

/-- The `await` at which an invocation is suspended, with the variables it still needs. -/
inductive Pending where
  | checkUserExistence (email : String)
  | signin (email : String)
  | signInRouter (nav : Effect)
  | createUser (user : Obj) (organization : Option Obj)
  | createProfileRouter (nav : Effect)
  deriving DecidableEq, Repr

/-- The suspensions that wait for a remote call (the others wait for the router). -/
def Pending.isRemoteCall : Pending → Bool
  | .checkUserExistence _ => true
  | .signin _ => true
  | .createUser _ _ => true
  | _ => false

/-- How an awaited promise settles. -/
inductive Settled where
  | bool (b : Bool)
  | response (r : Response)
  | unit
  | rejected (e : Err)
  deriving DecidableEq, Repr

/-- One uninterrupted piece of a handler: the state it leaves, what it did, and the `await`
it stops at (`none` when the handler has returned). -/
structure Piece where
  state : State
  effects : List Effect
  next : Option Pending
  deriving DecidableEq, Repr

/-- The handler `signIn` up to its first `await` (lines 110-118). -/
def signInStart (s : State) (email : String) : Piece :=
  if s.submitting then
    { state := s, effects := [], next := none }
  else
    { state := { s with submitting := true, error := Val.null }
      effects := [Effect.checkUserExistence email]
      next := some (Pending.checkUserExistence email) }

/-- The handler `createProfile` up to its first `await` (lines 143-167). -/
def createProfileStart (env : Env) (s : State) (data : Obj) : Piece :=
  if s.submitting then
    { state := s, effects := [], next := none }
  else
    let user := createProfileUser data
    let organization := createProfileOrganization data
    { state := { s with submitting := true, error := Val.null }
      effects := [Effect.createUser user organization (getRedirectURL env) env.websiteUrl]
      next := some (Pending.createUser user organization) }

/-- The handler `signIn` up to its first `await`, inside a batch: the guard of line 111 reads
`seen`, the value of `this.state` during the batch, and the patch of line 115 is merged into
`cur`, the state with the patches the batch has queued so far. -/
def signInStartIn (seen cur : State) (email : String) : Piece :=
  if seen.submitting then
    { state := cur, effects := [], next := none }
  else
    { state := { cur with submitting := true, error := Val.null }
      effects := [Effect.checkUserExistence email]
      next := some (Pending.checkUserExistence email) }

/-- The handler `createProfile` up to its first `await`, inside a batch: the guard of line 144
reads `seen`, and the patch of line 157 is merged into `cur`. -/
def createProfileStartIn (env : Env) (seen cur : State) (data : Obj) : Piece :=
  if seen.submitting then
    { state := cur, effects := [], next := none }
  else
    let user := createProfileUser data
    let organization := createProfileOrganization data
    { state := { cur with submitting := true, error := Val.null }
      effects := [Effect.createUser user organization (getRedirectURL env) env.websiteUrl]
      next := some (Pending.createUser user organization) }

/-- The piece of a handler that runs when the promise it awaits settles; `none` when the
settlement is not one the awaited call can produce. -/
def resume (env : Env) (s : State) : Pending → Settled → Option Piece
  | .checkUserExistence email, .bool true =>
    some { state := s
           effects := [Effect.signin email (getRedirectURL env) env.websiteUrl]
           next := some (Pending.signin email) }
  | .checkUserExistence _, .bool false =>
    some { state := { s with unknownEmailError := true, submitting := false }
           effects := [], next := none }
  | .checkUserExistence _, .rejected e =>
    some { state := signInCatch s e, effects := [Effect.scrollTo 0 0], next := none }
  | .signin email, .response r =>
    some { state := s, effects := [signInNavigation email r]
           next := some (Pending.signInRouter (signInNavigation email r)) }
  | .signin _, .rejected e =>
    some { state := signInCatch s e, effects := [Effect.scrollTo 0 0], next := none }
  | .signInRouter _, .unit =>
    some { state := s, effects := [Effect.scrollTo 0 0], next := none }
  | .signInRouter _, .rejected e =>
    some { state := signInCatch s e, effects := [Effect.scrollTo 0 0], next := none }
  | .createUser user _, .unit =>
    some { state := s, effects := [createProfileNavigation user]
           next := some (Pending.createProfileRouter (createProfileNavigation user)) }
  | .createUser _ _, .rejected e =>
    some { state := createProfileCatch s e, effects := [Effect.scrollTo 0 0], next := none }
  | .createProfileRouter _, .unit =>
    some { state := s, effects := [Effect.scrollTo 0 0], next := none }
  | .createProfileRouter _, .rejected e =>
    some { state := createProfileCatch s e, effects := [Effect.scrollTo 0 0], next := none }
  | _, _ => none

/-- A mounted component: its state, with the patches queued so far merged in, and the
invocations suspended at an `await`. Between two batches `state` is `this.state`. -/
structure Sys where
  state : State
  pending : List Pending
  deriving DecidableEq, Repr

/-- What can happen to a mounted component. -/
inductive Event where
  | signIn (email : String)
  | createProfile (data : Obj)
  | settle (i : Nat) (o : Settled)
  | switchForm (form : String)
  | emailChange (email : String)
  | useRecoveryCodes
  deriving DecidableEq, Repr

/-- The component right after construction: nothing is suspended. -/
def init (props : Props) : Sys :=
  { state := initialState props, pending := [] }

/-- One event inside a React batch: the new component and the effects performed. `seen` is
`this.state` as the handlers of the batch read it, the state the batch started with; the
patches are merged into `sys.state`. `settle i o` settles with `o` the promise awaited by the
`i`-th suspended invocation; `emailChange` is the `onEmailChange` callback of lines 326 and
342, `useRecoveryCodes` the `onClick` of line 287. Only the guards of `signIn` and
`createProfile` read `this.state`. -/
def act (env : Env) (seen : State) (sys : Sys) : Event → Sys × List Effect
  | .signIn email =>
    let p := signInStartIn seen sys.state email
    ({ state := p.state, pending := sys.pending ++ p.next.toList }, p.effects)
  | .createProfile data =>
    let p := createProfileStartIn env seen sys.state data
    ({ state := p.state, pending := sys.pending ++ p.next.toList }, p.effects)
  | .settle i o =>
    match sys.pending[i]? with
    | none => (sys, [])
    | some awaited =>
      match resume env sys.state awaited o with
      | none => (sys, [])
      | some p =>
        ({ state := p.state, pending := sys.pending.eraseIdx i ++ p.next.toList }, p.effects)
  | .switchForm form => ({ sys with state := switchForm sys.state form }, [])
  | .emailChange email =>
    ({ sys with state := { sys.state with email := email, unknownEmailError := false } }, [])
  | .useRecoveryCodes =>
    ({ sys with state := { sys.state with useRecoveryCodes := some true } }, [])

/-- A React batch: the events in it all read the `this.state` the batch started with, and
their patches are applied, in order, when it ends. -/
def batch (env : Env) (sys : Sys) (events : List Event) : Sys × List Effect :=
  events.foldl
    (fun acc e => ((act env sys.state acc.1 e).1, acc.2 ++ (act env sys.state acc.1 e).2))
    (sys, [])

/-- The component after a sequence of batches. -/
def runBatches (env : Env) (sys : Sys) (batches : List (List Event)) : Sys :=
  batches.foldl (fun acc events => (batch env acc events).1) sys

/-- One event handled in a batch of its own: its handler reads the current `this.state`, and
its patch is applied before the next event. -/
def step (env : Env) (sys : Sys) (e : Event) : Sys × List Effect :=
  act env sys.state sys e

/-- The component after a sequence of events, each handled in a batch of its own. -/
def run (env : Env) (sys : Sys) (events : List Event) : Sys :=
  events.foldl (fun acc e => (step env acc e).1) sys

/-- The settlement an `Api` gives to an awaited call. -/
def outcome (api : Api) (env : Env) : Pending → Settled
  | .checkUserExistence email =>
    match api.checkUserExistence email with
    | .ok b => Settled.bool b
    | .error e => Settled.rejected e
  | .signin email =>
    match api.signin email (getRedirectURL env) env.websiteUrl with
    | .ok r => Settled.response r
    | .error e => Settled.rejected e
  | .signInRouter nav =>
    match navigate api nav with
    | .ok _ => Settled.unit
    | .error e => Settled.rejected e
  | .createUser user organization =>
    match api.createUser user organization (getRedirectURL env) env.websiteUrl with
    | .ok _ => Settled.unit
    | .error e => Settled.rejected e
  | .createProfileRouter nav =>
    match navigate api nav with
    | .ok _ => Settled.unit
    | .error e => Settled.rejected e

/-- An invocation resumed, with the settlements of `api`, at most `fuel` times. -/
def drive (api : Api) (env : Env) : Nat → Piece → Piece
  | 0, p => p
  | fuel + 1, p =>
    match p.next with
    | none => p
    | some awaited =>
      match resume env p.state awaited (outcome api env awaited) with
      | none => p
      | some q =>
        drive api env fuel { state := q.state, effects := p.effects ++ q.effects, next := q.next }

/-- The remote calls in flight: the suspended invocations that wait for one. -/
def inFlight (sys : Sys) : List Pending :=
  sys.pending.filter Pending.isRemoteCall

/-- At most one invocation is suspended, and `submitting` is true while one is. -/
def Serialized (sys : Sys) : Prop :=
  sys.pending.length ≤ 1 ∧ (sys.pending ≠ [] → sys.state.submitting = true)

instance (sys : Sys) : Decidable (Serialized sys) := by
  unfold Serialized
  infer_instance

/-! ## Worked inputs -/

/-- Props with nothing supplied by the caller. -/
def sampleProps : Props :=
  { redirect := none, defaultEmail := none, email := none, disableSignup := false
    form := none, defaultForm := none, enforceTwoFactorAuthForLoggedInUser := false }

/-- The characters that `encodeURIComponent` leaves as they are: ASCII letters and digits
and the marks `- _ . ! ~ * ( )` and the apostrophe. -/
def isUnreserved (c : Char) : Bool :=
  c.isAlphanum || [45, 95, 46, 33, 126, 42, 39, 40, 41].contains c.toNat

/-- The UTF-8 bytes of a character. -/
def utf8Bytes (c : Char) : List Nat :=
  let n := c.toNat
  if n < 128 then [n]
  else if n < 2048 then [192 + n / 64, 128 + n % 64]
  else if n < 65536 then [224 + n / 4096, 128 + n / 64 % 64, 128 + n % 64]
  else [240 + n / 262144, 128 + n / 4096 % 64, 128 + n / 64 % 64, 128 + n % 64]

/-- An upper-case hexadecimal digit. -/
def hexDigit (n : Nat) : Char :=
  if n < 10 then Char.ofNat (48 + n) else Char.ofNat (55 + n)

/-- The escape `%XX` of a byte. -/
def percentByte (b : Nat) : String :=
  String.mk ['%', hexDigit (b / 16), hexDigit (b % 16)]

/-- The percent-encoding performed by the built-in `encodeURIComponent`, for the worked
inputs. -/
def percentEncode (text : String) : String :=
  String.join (text.toList.map fun c =>
    if isUnreserved c then String.mk [c] else String.join ((utf8Bytes c).map percentByte))

/-- A stand-in for `isEmail` on the worked inputs: one `@` with text on both sides. -/
def sampleIsEmail (text : String) : Bool :=
  decide (text.toList.count '@' = 1) && decide (text.toList.head? ≠ some '@') &&
    decide (text.toList.getLast? ≠ some '@')

/-- An environment for the worked inputs: the page `/signin`. -/
def sampleEnv : Env :=
  { props := sampleProps
    window := { pathname := "/signin", search := "" }
    encodeURIComponent := percentEncode
    websiteUrl := "https://opencollective.com" }

/-- An `Api` whose remote calls settle in the given way whatever their arguments, and whose
router always succeeds. -/
def sampleApi (userExists : Except Err Bool) (response : Except Err Response)
    (created : Except Err Unit) : Api :=
  { checkUserExistence := fun _ => userExists
    signin := fun _ _ _ => response
    createUser := fun _ _ _ _ => created
    routerReplace := fun _ => Except.ok ()
    routerPush := fun _ _ => Except.ok () }

/-- What claim C5 calls an empty field of the submitted profile: the key is missing (it reads
as `undefined`), or its value is `null` or the empty string. -/
def isEmptyVal : Val → Bool
  | .undefined => true
  | .null => true
  | .bool _ => false
  | .str s => decide (s = "")

/-- The organization-only fields that travel under their own name. -/
def organizationPlainFields : List String :=
  ["website", "repositoryUrl", "twitterHandle"]

/-! ## Mounting (lines 90-95) -/

/-- The test `if (a)` for an optional string prop (absent or empty is falsy). -/
def optTruthy (a : Option String) : Bool :=
  match a with
  | some s => decide (s ≠ "")
  | none => false

/-- What `componentDidMount` does: the arguments of its calls of `signIn`, and the state and
effects these calls lead to. -/
structure Mounted where
  signInCalls : List String
  state : State
  effects : List Effect

/-- The method `componentDidMount` (lines 90-95), run on the state `s`; `isEmail` is the
function of the `validator` package. -/
def componentDidMount (isEmail : String → Bool) (api : Api) (env : Env) (s : State) : Mounted :=
  match env.props.email with
  | some email =>
    if optTruthy (some email) && isEmail email then
      { signInCalls := [email]
        state := (signIn api env s email).state
        effects := (signIn api env s email).effects }
    else
      { signInCalls := [], state := s, effects := [] }
  | none => { signInCalls := [], state := s, effects := [] }

/-- Construction followed by `componentDidMount`. -/
def mount (isEmail : String → Bool) (api : Api) (env : Env) : Mounted :=
  componentDidMount isEmail api env (initialState env.props)

/-! ## The two-factor form (lines 192-208) -/

/-- The values of the two-factor form. -/
structure TwoFactorValues where
  twoFactorAuthenticatorCode : String
  recoveryCode : String
  deriving DecidableEq, Repr

/-- The caller-supplied callbacks, by how the promise they return settles;
`submitRecoveryCode` resolves with a user, seen through `user.collective.slug`. -/
structure TwoFactorCallbacks where
  submitRecoveryCode : String → Except Err String
  submitTwoFactorAuthenticatorCode : String → Except Err Unit

/-- The observable actions of the two-factor form. -/
inductive TwoFactorEffect where
  | submitRecoveryCode (code : String)
  | submitTwoFactorAuthenticatorCode (code : String)
  | routerReplace (pathname : String) (query : Obj)
  deriving DecidableEq, Repr

/-- The calls of one of the two callbacks. -/
def TwoFactorEffect.isCallback : TwoFactorEffect → Bool
  | .submitRecoveryCode _ => true
  | .submitTwoFactorAuthenticatorCode _ => true
  | .routerReplace _ _ => false

/-- The navigations of the two-factor form. -/
def TwoFactorEffect.isNavigation : TwoFactorEffect → Bool
  | .routerReplace _ _ => true
  | _ => false

/-- The `onSubmit` handler of the two-factor form (lines 197-208). -/
def twoFactorOnSubmit (props : TwoFactorCallbacks) (values : TwoFactorValues) :
    List TwoFactorEffect :=
  if values.recoveryCode ≠ "" then
    match props.submitRecoveryCode values.recoveryCode with
    | .ok slug =>
      [TwoFactorEffect.submitRecoveryCode values.recoveryCode,
       TwoFactorEffect.routerReplace "/[slug]/admin/two-factor-auth" [("slug", Val.str slug)]]
    | .error _ => [TwoFactorEffect.submitRecoveryCode values.recoveryCode]
  else
    [TwoFactorEffect.submitTwoFactorAuthenticatorCode values.twoFactorAuthenticatorCode]

/-! ## `render` (lines 304-367) -/

/-- The form shown below the error box. -/
inductive FormView where
  | twoFactorAuthBoxes (useRecoveryCodes : Option Bool)
  | signIn
  | createProfile
  deriving DecidableEq, Repr

/-- What `render` returns: the loading view, or the column with the error box (when `error`
is truthy) and one form. -/
inductive View where
  | loading
  | column (errorBox : Bool) (form : FormView)
  deriving DecidableEq, Repr

/-- The value `hasError` of `render` (line 311). -/
def hasError (s : State) : Bool :=
  s.unknownEmailError || s.error.truthy

/-- The method `render` (lines 304-367). -/
def render (props : Props) (s : State) : View :=
  if optTruthy props.email && !hasError s then
    View.loading
  else
    View.column s.error.truthy
      (if props.enforceTwoFactorAuthForLoggedInUser then
        FormView.twoFactorAuthBoxes s.useRecoveryCodes
      else if displayedForm props s ≠ "create-account" then
        FormView.signIn
      else
        FormView.createProfile)

end SignInOrJoinFree

/-! # `components/SendMoneyToCollectiveBtn.js` -/

namespace SendMoneyToCollectiveBtn

open SignInOrJoinFree (Val Obj pick hasKey getProp Err errMessage)

/-- A payment method of the account, seen through its `id`. -/
structure PaymentMethod where
  id : String
  deriving DecidableEq, Repr

/-- The `account` of the payment-methods query; `paymentMethods` may be missing. -/
structure Account where
  paymentMethods : Option (List PaymentMethod)
  deriving DecidableEq, Repr

/-- The `data` prop; `account` is `none` while it is not loaded. -/
structure Data where
  account : Option Account
  deriving DecidableEq, Repr

/-- The logged-in user, seen through its method `canEditCollective`. -/
structure User where
  canEditCollective : Obj → Bool

/-- The props read by `onClick` (line 44); `amount` is a number of cents. -/
structure Props where
  amount : Int
  currency : String
  description : Option String
  fromCollective : Obj
  toCollective : Obj
  data : Option Data
  LoggedInUser : Option User

/-- The component state: `{}` at construction (line 34), so both fields start `undefined`. -/
structure State where
  error : Val
  loading : Val
  deriving DecidableEq, Repr

/-- The state set up by the constructor (lines 31-35). -/
def initialState : State :=
  { error := Val.undefined, loading := Val.undefined }

/-- The `amount` of an order. -/
structure Amount where
  valueInCents : Int
  currency : String
  deriving DecidableEq, Repr

/-- The `paymentMethod` of an order. -/
structure PaymentMethodReference where
  id : String
  deriving DecidableEq, Repr

/-- The `order` built by `onClick` (lines 55-63). -/
structure Order where
  amount : Amount
  toAccount : Obj
  fromAccount : Obj
  description : Option String
  paymentMethod : PaymentMethodReference
  frequency : String
  isBalanceTransfer : Bool
  deriving DecidableEq, Repr

/-- The result of `onClick`: the state it leaves and the orders it sent to the mutation. -/
structure Run where
  state : State
  mutations : List Order
  deriving DecidableEq, Repr

/-- The `order` of lines 55-63 for the first payment method `first`. -/
def buildOrder (props : Props) (first : PaymentMethod) : Order :=
  { amount := { valueInCents := props.amount, currency := props.currency }
    toAccount := pick props.toCollective ["slug"]
    fromAccount := pick props.fromCollective ["slug"]
    description := props.description
    paymentMethod := { id := first.id }
    frequency := "ONETIME"
    isBalanceTransfer := true }

/-- The value `get(data, 'account')` (line 45). -/
def getAccount (data : Option Data) : Option Account :=
  match data with
  | some d => d.account
  | none => none

/-- The value `get(data, 'account.paymentMethods')` (line 48). -/
def getPaymentMethods (data : Option Data) : Option (List PaymentMethod) :=
  match getAccount data with
  | some account => account.paymentMethods
  | none => none

/-- The message of line 50. -/
def noPaymentMethodError : String :=
  "We couldn't find a payment method to make this transaction"

/-- The method `onClick` (lines 43-82), run to completion; `sendMoneyToCollective` says how
the promise of the mutation settles. -/
def onClick (sendMoneyToCollective : Order → Except Err Unit) (props : Props) (s : State) :
    Run :=
  match props.LoggedInUser with
  | none => { state := s, mutations := [] }
  | some user =>
    if !user.canEditCollective props.fromCollective || (getAccount props.data).isNone then
      { state := s, mutations := [] }
    else
      match getPaymentMethods props.data with
      | none => { state := { s with error := Val.str noPaymentMethodError }, mutations := [] }
      | some [] => { state := { s with error := Val.str noPaymentMethodError }, mutations := [] }
      | some (first :: _) =>
        let s1 : State := { s with loading := Val.bool true }
        let order := buildOrder props first
        match sendMoneyToCollective order with
        | .ok _ => { state := { s1 with loading := Val.bool false }, mutations := [order] }
        | .error e =>
          { state := { s1 with error := errMessage e, loading := Val.bool false }
            mutations := [order] }

/-- Props for the worked inputs: a transfer of 1000 cents between two collectives by a user
who can edit everything, with the given payment methods loaded. -/
def sampleProps (methods : Option (List PaymentMethod)) : Props :=
  { amount := 1000
    currency := "USD"
    description := none
    fromCollective := [("id", Val.str "1"), ("slug", Val.str "from-collective")]
    toCollective := [("id", Val.str "2"), ("slug", Val.str "to-collective")]
    data := some { account := some { paymentMethods := methods } }
    LoggedInUser := some { canEditCollective := fun _ => true } }

end SendMoneyToCollectiveBtn

/-! # `components/TopBar.js` -/

namespace TopBar

/-- The component state (line 75). -/
structure State where
  showMobileMenu : Bool
  deriving DecidableEq, Repr

/-- The state set up by the constructor (lines 73-77). -/
def initialState : State :=
  { showMobileMenu := false }

/-- The element held by `this.ref.current`, seen through its method `contains`; nodes of the
document are numbered. -/
structure Element where
  contains : Nat → Bool

/-- The result of a handler: the state it leaves and the values it assigned to
`showMobileMenu` through `setState`. -/
structure Handled where
  state : State
  assigned : List Bool
  deriving DecidableEq, Repr

/-- The handler `onClickOutside` (lines 87-92) for a click on the node `target`; `ref` is
`this.ref.current`, `none` when it is `null`. -/
def onClickOutside (ref : Option Element) (s : State) (target : Nat) : Handled :=
  match ref with
  | some element =>
    if s.showMobileMenu && !element.contains target then
      { state := { s with showMobileMenu := false }, assigned := [false] }
    else
      { state := s, assigned := [] }
  | none => { state := s, assigned := [] }

/-- The handler `toggleMobileMenu` (lines 94-96). -/
def toggleMobileMenu (s : State) : State :=
  { s with showMobileMenu := !s.showMobileMenu }

end TopBar

namespace SignInOrJoinFree

/-! ## Theorems -/

/-- C1: when the existence check for the email returns false, `signIn` from a state that is
not submitting ends with `unknownEmailError = true` and `submitting = false`; the existence
check is the only thing it did, so it issued no sign-in request and no navigation. -/
theorem signIn_unknown_email (api : Api) (env : Env) (s : State) (email : String)
    (hs : s.submitting = false) (hc : api.checkUserExistence email = Except.ok false) :
    (signIn api env s email).state.unknownEmailError = true ∧
    (signIn api env s email).state.submitting = false ∧
    (signIn api env s email).effects = [Effect.checkUserExistence email] ∧
    (∀ eff ∈ (signIn api env s email).effects,
      eff.isSignInRequest = false ∧ eff.isNavigation = false) := by
  simp [signIn, hs, hc, Effect.isSignInRequest, Effect.isNavigation]

/-- Witness of C1 at the email `new@example.com`. -/
theorem signIn_unknown_email_witness :
    (signIn (sampleApi (Except.ok false) (Except.ok { redirect := none }) (Except.ok ()))
      sampleEnv (initialState sampleProps) "new@example.com").state.unknownEmailError = true ∧
    (signIn (sampleApi (Except.ok false) (Except.ok { redirect := none }) (Except.ok ()))
      sampleEnv (initialState sampleProps) "new@example.com").state.submitting = false ∧
    (signIn (sampleApi (Except.ok false) (Except.ok { redirect := none }) (Except.ok ()))
      sampleEnv (initialState sampleProps) "new@example.com").effects
        = [Effect.checkUserExistence "new@example.com"] ∧
    (∀ eff ∈ (signIn (sampleApi (Except.ok false) (Except.ok { redirect := none }) (Except.ok ()))
      sampleEnv (initialState sampleProps) "new@example.com").effects,
      eff.isSignInRequest = false ∧ eff.isNavigation = false) :=
  signIn_unknown_email _ sampleEnv (initialState sampleProps) "new@example.com" rfl rfl

/-- C2: while `submitting` is true, `signIn` and `createProfile` return `false`, leave the
state as it is and do nothing: no remote call, no navigation. -/
theorem submit_rejected_while_submitting (api : Api) (env : Env) (s : State)
    (email : String) (data : Obj) (hs : s.submitting = true) :
    signIn api env s email = { state := s, effects := [], ret := Val.bool false } ∧
    createProfile api env s data = { state := s, effects := [], ret := Val.bool false } := by
  simp [signIn, createProfile, hs]

/-- Witness of C2 at the state a first `signIn` leaves while its existence check is pending. -/
theorem submit_rejected_while_submitting_witness :
    (signInStart (initialState sampleProps) "a@example.com").state.submitting = true ∧
    signIn (sampleApi (Except.ok true) (Except.ok { redirect := none }) (Except.ok ())) sampleEnv
        (signInStart (initialState sampleProps) "a@example.com").state "b@example.com"
      = { state := (signInStart (initialState sampleProps) "a@example.com").state
          effects := [], ret := Val.bool false } ∧
    createProfile (sampleApi (Except.ok true) (Except.ok { redirect := none }) (Except.ok ()))
        sampleEnv (signInStart (initialState sampleProps) "a@example.com").state
        [("email", Val.str "b@example.com")]
      = { state := (signInStart (initialState sampleProps) "a@example.com").state
          effects := [], ret := Val.bool false } :=
  ⟨rfl, submit_rejected_while_submitting _ sampleEnv _ "b@example.com"
    [("email", Val.str "b@example.com")] rfl⟩

/-! ### Reading objects built by `pick`, assignment and `delete` -/

theorem getProp_of_hasKey_false (o : Obj) (k : String) (h : hasKey o k = false) :
    getProp o k = Val.undefined := by
  induction o with
  | nil => rfl
  | cons p o ih =>
    simp only [hasKey, List.any_cons, Bool.or_eq_false_iff, decide_eq_false_iff_not] at h
    have ih2 := ih (by simpa [hasKey] using h.2)
    simp only [getProp, List.find?_cons] at ih2 ⊢
    simp [h.1, ih2]

theorem hasKey_nil (k : String) : hasKey [] k = false := rfl

theorem hasKey_cons (p : String × Val) (o : Obj) (k : String) :
    hasKey (p :: o) k = (decide (p.1 = k) || hasKey o k) := rfl

theorem getProp_cons (p : String × Val) (o : Obj) (k : String) :
    getProp (p :: o) k = if p.1 = k then p.2 else getProp o k := by
  by_cases h : p.1 = k <;> simp [getProp, List.find?_cons, h]

theorem pick_nil (o : Obj) : pick o [] = [] := rfl

theorem pick_cons (o : Obj) (a : String) (ks : List String) :
    pick o (a :: ks) = if hasKey o a then (a, getProp o a) :: pick o ks else pick o ks := by
  by_cases h : hasKey o a = true <;> simp [pick, List.filterMap_cons, h]

theorem hasKey_pick (o : Obj) (ks : List String) (k : String) :
    hasKey (pick o ks) k = (decide (k ∈ ks) && hasKey o k) := by
  induction ks with
  | nil => simp [pick_nil, hasKey_nil]
  | cons a ks ih =>
    rw [pick_cons]
    by_cases ha : hasKey o a = true
    · rw [if_pos ha, hasKey_cons, ih]
      by_cases hak : a = k
      · subst hak
        simp [ha]
      · have hka : ¬ k = a := fun h => hak h.symm
        simp [hak, hka]
    · rw [if_neg ha, ih]
      by_cases hak : a = k
      · subst hak
        simp only [Bool.not_eq_true] at ha
        simp [ha]
      · have hka : ¬ k = a := fun h => hak h.symm
        simp [hka]

theorem getProp_pick (o : Obj) (ks : List String) (k : String) (hk : k ∈ ks) :
    getProp (pick o ks) k = getProp o k := by
  induction ks with
  | nil => simp at hk
  | cons a ks ih =>
    rw [pick_cons]
    by_cases hak : a = k
    · subst hak
      by_cases ha : hasKey o a = true
      · rw [if_pos ha, getProp_cons]
        simp
      · rw [if_neg ha]
        simp only [Bool.not_eq_true] at ha
        rw [getProp_of_hasKey_false o a ha]
        by_cases hmem : a ∈ ks
        · rw [ih hmem, getProp_of_hasKey_false o a ha]
        · apply getProp_of_hasKey_false
          rw [hasKey_pick]
          simp [ha]
    · have hmem : k ∈ ks := by
        rcases List.mem_cons.mp hk with h | h
        · exact absurd h.symm hak
        · exact h
      by_cases ha : hasKey o a = true
      · rw [if_pos ha, getProp_cons]
        simp [hak, ih hmem]
      · rw [if_neg ha, ih hmem]

theorem hasKey_map_assign (o : Obj) (k : String) (v : Val) (j : String) :
    hasKey (o.map (fun p => if p.1 = k then (k, v) else p)) j = hasKey o j := by
  induction o with
  | nil => rfl
  | cons p o ih =>
    rw [List.map_cons, hasKey_cons, hasKey_cons, ih]
    by_cases hp : p.1 = k
    · simp [hp]
    · simp [hp]

theorem hasKey_append_one (o : Obj) (k : String) (v : Val) (j : String) :
    hasKey (o ++ [(k, v)]) j = (hasKey o j || decide (k = j)) := by
  induction o with
  | nil => simp [hasKey]
  | cons p o ih =>
    rw [List.cons_append, hasKey_cons, hasKey_cons, ih, Bool.or_assoc]

theorem hasKey_setProp (o : Obj) (k : String) (v : Val) (j : String) :
    hasKey (setProp o k v) j = (decide (j = k) || hasKey o j) := by
  unfold setProp
  by_cases hk : hasKey o k = true
  · rw [if_pos hk, hasKey_map_assign]
    by_cases hj : j = k
    · subst hj
      simp [hk]
    · simp [hj]
  · rw [if_neg hk, hasKey_append_one, Bool.or_comm]
    by_cases hj : j = k
    · subst hj
      simp
    · have hkj : ¬ k = j := fun h => hj h.symm
      simp [hj, hkj]

theorem getProp_map_assign (o : Obj) (k : String) (v : Val) (j : String) :
    getProp (o.map (fun p => if p.1 = k then (k, v) else p)) j
      = if j = k then (if hasKey o k then v else Val.undefined) else getProp o j := by
  induction o with
  | nil => simp [getProp, hasKey_nil]
  | cons p o ih =>
    rw [List.map_cons, getProp_cons, getProp_cons, hasKey_cons, ih]
    by_cases hp : p.1 = k
    · by_cases hj : j = k
      · simp [hp, hj]
      · have hkj : ¬ k = j := fun h => hj h.symm
        have hpj : ¬ p.1 = j := fun h => hj (h.symm.trans hp)
        simp [hp, hj, hkj, hpj]
    · by_cases hj : j = k
      · have hpj : ¬ p.1 = j := fun h => hp (h.trans hj)
        simp [hp, hj, hpj]
      · by_cases hpj : p.1 = j <;> simp [hp, hj, hpj]

theorem getProp_append_one (o : Obj) (k : String) (v : Val) (j : String) :
    getProp (o ++ [(k, v)]) j
      = if hasKey o j then getProp o j else if k = j then v else Val.undefined := by
  induction o with
  | nil =>
    rw [List.nil_append, getProp_cons, hasKey_nil]
    simp [getProp]
  | cons p o ih =>
    rw [List.cons_append, getProp_cons, getProp_cons, hasKey_cons, ih]
    by_cases hpj : p.1 = j <;> simp [hpj]

theorem getProp_setProp (o : Obj) (k : String) (v : Val) (j : String) :
    getProp (setProp o k v) j = if j = k then v else getProp o j := by
  unfold setProp
  by_cases hk : hasKey o k = true
  · rw [if_pos hk, getProp_map_assign]
    simp [hk]
  · rw [if_neg hk, getProp_append_one]
    simp only [Bool.not_eq_true] at hk
    by_cases hj : j = k
    · subst hj
      simp [hk]
    · have hkj : ¬ k = j := fun h => hj h.symm
      by_cases hoj : hasKey o j = true
      · simp [hj, hoj]
      · simp only [Bool.not_eq_true] at hoj
        simp [hj, hkj, hoj, getProp_of_hasKey_false o j hoj]

theorem hasKey_deleteProp (o : Obj) (k : String) (j : String) :
    hasKey (deleteProp o k) j = (decide (j ≠ k) && hasKey o j) := by
  induction o with
  | nil => simp [deleteProp, hasKey_nil]
  | cons p o ih =>
    unfold deleteProp at ih ⊢
    rw [List.filter_cons]
    by_cases hp : p.1 = k
    · simp only [hp, ne_eq, not_true_eq_false, decide_False, Bool.false_eq_true, if_false]
      rw [ih, hasKey_cons]
      by_cases hj : j = k
      · simp [hj]
      · have hkj : ¬ k = j := fun h => hj h.symm
        simp [hj, hp, hkj]
    · simp only [ne_eq, hp, not_false_eq_true, decide_True, if_true]
      rw [hasKey_cons, hasKey_cons, ih]
      by_cases hj : j = k
      · have hpj : ¬ p.1 = j := fun h => hp (h.trans hj)
        simp [hj, hpj]
        subst hj
        simp [hp]
      · simp [hj]

theorem getProp_deleteProp (o : Obj) (k : String) (j : String) (hj : j ≠ k) :
    getProp (deleteProp o k) j = getProp o j := by
  induction o with
  | nil => simp [deleteProp]
  | cons p o ih =>
    unfold deleteProp at ih ⊢
    rw [List.filter_cons]
    by_cases hp : p.1 = k
    · have hpj : ¬ p.1 = j := fun h => hj (h.symm.trans hp)
      simp only [hp, ne_eq, not_true_eq_false, decide_False, Bool.false_eq_true, if_false]
      rw [ih, getProp_cons, if_neg hpj]
    · simp only [ne_eq, hp, not_false_eq_true, decide_True, if_true]
      rw [getProp_cons, getProp_cons, ih]

/-! ### `signIn` after a positive existence check -/

theorem signIn_effects_of_response (api : Api) (env : Env) (s : State) (email : String)
    (R : Response) (hs : s.submitting = false)
    (hc : api.checkUserExistence email = Except.ok true)
    (hr : api.signin email (getRedirectURL env) env.websiteUrl = Except.ok R) :
    (signIn api env s email).effects
      = [Effect.checkUserExistence email,
         Effect.signin email (getRedirectURL env) env.websiteUrl,
         signInNavigation email R, Effect.scrollTo 0 0] := by
  unfold signIn
  simp only [hs, Bool.false_eq_true, if_false, hc, hr]
  cases navigate api (signInNavigation email R) <;> rfl

theorem signInNavigation_isNavigation (email : String) (R : Response) :
    (signInNavigation email R).isNavigation = true := by
  unfold signInNavigation
  cases redirectTarget R <;> rfl

theorem signIn_navigations_of_response (api : Api) (env : Env) (s : State) (email : String)
    (R : Response) (hs : s.submitting = false)
    (hc : api.checkUserExistence email = Except.ok true)
    (hr : api.signin email (getRedirectURL env) env.websiteUrl = Except.ok R) :
    (signIn api env s email).effects.filter Effect.isNavigation = [signInNavigation email R] := by
  have h1 : (Effect.checkUserExistence email).isNavigation = false := rfl
  have h2 : (Effect.signin email (getRedirectURL env) env.websiteUrl).isNavigation = false := rfl
  have h3 : (Effect.scrollTo 0 0).isNavigation = false := rfl
  rw [signIn_effects_of_response api env s email R hs hc hr]
  simp [List.filter_cons, h1, h2, h3, signInNavigation_isNavigation]

/-- C4: when the existence check returns true and the sign-in request succeeds with response
`R`, `signIn` performs exactly one navigation: `router.replace(R.redirect)` when `R` carries a
redirect target (a truthy `redirect`), and otherwise `router.push` to `/signin/sent` with
query `email`. -/
theorem signIn_navigates_once (api : Api) (env : Env) (s : State) (email : String)
    (R : Response) (hs : s.submitting = false)
    (hc : api.checkUserExistence email = Except.ok true)
    (hr : api.signin email (getRedirectURL env) env.websiteUrl = Except.ok R) :
    (∀ url, R.redirect = some url → url ≠ "" →
      (signIn api env s email).effects.filter Effect.isNavigation
        = [Effect.routerReplace url]) ∧
    ((R.redirect = none ∨ R.redirect = some "") →
      (signIn api env s email).effects.filter Effect.isNavigation
        = [Effect.routerPush "/signin/sent" [("email", Val.str email)]]) := by
  rw [signIn_navigations_of_response api env s email R hs hc hr]
  constructor
  · intro url hurl hne
    simp [signInNavigation, redirectTarget, hurl, hne]
  · rintro (h | h) <;> simp [signInNavigation, redirectTarget, h]

/-- Witness of C4 at the two responses of the scenarios: a redirect to `/x`, and no redirect. -/
theorem signIn_navigates_once_witness :
    (signIn (sampleApi (Except.ok true) (Except.ok { redirect := some "/x" }) (Except.ok ()))
        sampleEnv (initialState sampleProps) "known@example.com").effects.filter
        Effect.isNavigation
      = [Effect.routerReplace "/x"] ∧
    (signIn (sampleApi (Except.ok true) (Except.ok { redirect := none }) (Except.ok ()))
        sampleEnv (initialState sampleProps) "known@example.com").effects.filter
        Effect.isNavigation
      = [Effect.routerPush "/signin/sent" [("email", Val.str "known@example.com")]] :=
  ⟨(signIn_navigates_once _ sampleEnv (initialState sampleProps) "known@example.com"
      { redirect := some "/x" } rfl rfl rfl).1 "/x" rfl (by decide),
   (signIn_navigates_once _ sampleEnv (initialState sampleProps) "known@example.com"
      { redirect := none } rfl rfl rfl).2 (Or.inl rfl)⟩

/-! ### The payload of `createProfile` -/

theorem createProfile_createUserCalls (api : Api) (env : Env) (s : State) (data : Obj)
    (hs : s.submitting = false) :
    createUserCalls (createProfile api env s data).effects
      = [(createProfileUser data, createProfileOrganization data)] := by
  unfold createProfile
  simp only [hs, Bool.false_eq_true, if_false]
  cases api.createUser (createProfileUser data) (createProfileOrganization data)
    (getRedirectURL env) env.websiteUrl with
  | error e => rfl
  | ok u =>
    simp only []
    cases navigate api (createProfileNavigation (createProfileUser data)) <;> rfl

theorem pick_ne_nil_iff (o : Obj) (ks : List String) :
    0 < (objectKeys (pick o ks)).length ↔ ∃ k ∈ ks, hasKey o k = true := by
  induction ks with
  | nil => simp [pick_nil, objectKeys]
  | cons a ks ih =>
    rw [pick_cons]
    by_cases ha : hasKey o a = true
    · rw [if_pos ha]
      simp only [objectKeys, List.map_cons, List.length_cons, Nat.zero_lt_succ, true_iff]
      exact ⟨a, List.mem_cons_self a ks, ha⟩
    · rw [if_neg ha, ih]
      constructor
      · rintro ⟨k, hk, hok⟩
        exact ⟨k, List.mem_cons_of_mem a hk, hok⟩
      · rintro ⟨k, hk, hok⟩
        rcases List.mem_cons.mp hk with h | h
        · subst h
          exact absurd hok ha
        · exact ⟨k, h, hok⟩

theorem createProfileOrganization_isSome_iff (data : Obj) :
    createProfileOrganization data ≠ none ↔ ∃ k ∈ organizationFields, hasKey data k = true := by
  rw [← pick_ne_nil_iff]
  unfold createProfileOrganization
  by_cases h : 0 < (objectKeys (pick data organizationFields)).length
  · simp [h]
  · simp [h]

/-- C5, as stated, fails: for the input `{email: "a@example.com", orgName: ""}` every
organization-only field is empty, and the create-user call still gets a non-null
`organization`, namely `{name: "", legalName: undefined}`. -/
theorem createProfile_organization_of_empty_field :
    (∀ k ∈ organizationFields,
      isEmptyVal (getProp [("email", Val.str "a@example.com"), ("orgName", Val.str "")] k)
        = true) ∧
    createUserCalls
        (createProfile (sampleApi (Except.ok true) (Except.ok { redirect := none }) (Except.ok ()))
          sampleEnv (initialState sampleProps)
          [("email", Val.str "a@example.com"), ("orgName", Val.str "")]).effects
      = [([("email", Val.str "a@example.com")],
          some [("name", Val.str ""), ("legalName", Val.undefined)])] := by
  constructor
  · decide
  · decide

/-- C5, amended: for every profile input passed to `createProfile` with `submitting = false`,
the `organization` argument of the create-user call is non-null if and only if at least one of
the organization-only keys is present in the input, whatever its value; in particular it is
non-null as soon as one of these fields is non-empty, and null when none of the keys is
present. -/
theorem createProfile_organization_iff (api : Api) (env : Env) (s : State) (data : Obj)
    (hs : s.submitting = false) :
    createUserCalls (createProfile api env s data).effects
      = [(createProfileUser data, createProfileOrganization data)] ∧
    (createProfileOrganization data ≠ none ↔
      ∃ k ∈ organizationFields, hasKey data k = true) ∧
    ((∃ k ∈ organizationFields, isEmptyVal (getProp data k) = false) →
      createProfileOrganization data ≠ none) := by
  refine ⟨createProfile_createUserCalls api env s data hs,
    createProfileOrganization_isSome_iff data, ?_⟩
  rintro ⟨k, hk, hne⟩
  rw [createProfileOrganization_isSome_iff]
  refine ⟨k, hk, ?_⟩
  by_contra hno
  simp only [Bool.not_eq_true] at hno
  rw [getProp_of_hasKey_false data k hno] at hne
  simp [isEmptyVal] at hne

/-- Witness of the amended C5 at a personal profile, which has no organization-only key. -/
theorem createProfile_organization_iff_witness :
    (initialState sampleProps).submitting = false ∧
    createUserCalls
        (createProfile (sampleApi (Except.ok true) (Except.ok { redirect := none }) (Except.ok ()))
          sampleEnv (initialState sampleProps)
          [("email", Val.str "a@example.com"), ("name", Val.str "Ada")]).effects
      = [(createProfileUser [("email", Val.str "a@example.com"), ("name", Val.str "Ada")],
          createProfileOrganization [("email", Val.str "a@example.com"), ("name", Val.str "Ada")])] :=
  ⟨rfl, (createProfile_organization_iff _ sampleEnv (initialState sampleProps)
    [("email", Val.str "a@example.com"), ("name", Val.str "Ada")] rfl).1⟩

theorem createProfileOrganization_eq (data : Obj) (org : Obj)
    (h : createProfileOrganization data = some org) :
    org = deleteProp (deleteProp
      (setProp (setProp (pick data organizationFields) "name"
          (getProp (pick data organizationFields) "orgName"))
        "legalName" (getProp (pick data organizationFields) "orgLegalName"))
      "orgName") "orgLegalName" := by
  unfold createProfileOrganization at h
  by_cases hlen : (objectKeys (pick data organizationFields)).length > 0
  · simp only [hlen, if_true, Option.some.injEq] at h
    rw [← h, getProp_setProp]
    simp
  · simp [hlen] at h

/-- C6: when `createProfile` builds a non-null organization object, the create-user call gets
it with `name` equal to the input's `orgName` and `legalName` equal to the input's
`orgLegalName`, without the keys `orgName` and `orgLegalName`, with `website`,
`repositoryUrl` and `twitterHandle` as they are in the input, and with no other key; the user
object has no key besides `email`, `name`, `legalName` and `newsletterOptIn`, each as it is in
the input. -/
theorem createProfile_payload (api : Api) (env : Env) (s : State) (data org : Obj)
    (hs : s.submitting = false) (horg : createProfileOrganization data = some org) :
    createUserCalls (createProfile api env s data).effects
      = [(createProfileUser data, some org)] ∧
    getProp org "name" = getProp data "orgName" ∧
    getProp org "legalName" = getProp data "orgLegalName" ∧
    hasKey org "orgName" = false ∧
    hasKey org "orgLegalName" = false ∧
    (∀ k ∈ organizationPlainFields,
      hasKey org k = hasKey data k ∧ getProp org k = getProp data k) ∧
    (∀ k, hasKey org k = true →
      k = "name" ∨ k = "legalName" ∨ k ∈ organizationPlainFields) ∧
    (∀ k, hasKey (createProfileUser data) k = true → k ∈ userFields) ∧
    (∀ k ∈ userFields,
      hasKey (createProfileUser data) k = hasKey data k ∧
      getProp (createProfileUser data) k = getProp data k) := by
  have hcall := createProfile_createUserCalls api env s data hs
  rw [horg] at hcall
  have horg2 := createProfileOrganization_eq data org horg
  have hget : ∀ j, j ≠ "orgName" → j ≠ "orgLegalName" →
      getProp org j = if j = "legalName" then getProp data "orgLegalName"
        else if j = "name" then getProp data "orgName"
        else getProp (pick data organizationFields) j := by
    intro j h1 h2
    rw [horg2, getProp_deleteProp _ _ _ h2, getProp_deleteProp _ _ _ h1, getProp_setProp,
      getProp_setProp, getProp_pick data organizationFields "orgName" (by decide),
      getProp_pick data organizationFields "orgLegalName" (by decide)]
  have hhas : ∀ j, hasKey org j = (decide (j ≠ "orgLegalName") && (decide (j ≠ "orgName") &&
      (decide (j = "legalName") || (decide (j = "name") ||
        (decide (j ∈ organizationFields) && hasKey data j))))) := by
    intro j
    rw [horg2, hasKey_deleteProp, hasKey_deleteProp, hasKey_setProp, hasKey_setProp, hasKey_pick]
  refine ⟨hcall, ?_, ?_, ?_, ?_, ?_, ?_, ?_, ?_⟩
  · rw [hget "name" (by decide) (by decide)]
    simp
  · rw [hget "legalName" (by decide) (by decide)]
    simp
  · rw [hhas]
    simp
  · rw [hhas]
    simp
  · intro k hk
    have hk1 : k ≠ "orgName" := by rintro rfl; revert hk; decide
    have hk2 : k ≠ "orgLegalName" := by rintro rfl; revert hk; decide
    have hk3 : k ≠ "legalName" := by rintro rfl; revert hk; decide
    have hk4 : k ≠ "name" := by rintro rfl; revert hk; decide
    have hk5 : k ∈ organizationFields := by
      simp only [organizationPlainFields, List.mem_cons, List.mem_singleton] at hk
      simp only [organizationFields, List.mem_cons, List.mem_singleton]
      tauto
    constructor
    · rw [hhas]
      simp [hk1, hk2, hk3, hk4, hk5]
    · rw [hget k hk1 hk2, if_neg hk3, if_neg hk4, getProp_pick data organizationFields k hk5]
  · intro k hk
    rw [hhas] at hk
    simp only [Bool.and_eq_true, Bool.or_eq_true, decide_eq_true_eq] at hk
    obtain ⟨h2, h1, h⟩ := hk
    rcases h with h | h | ⟨h, -⟩
    · exact Or.inr (Or.inl h)
    · exact Or.inl h
    · right; right
      simp only [organizationFields, List.mem_cons, List.mem_singleton] at h
      simp only [organizationPlainFields, List.mem_cons, List.mem_singleton]
      simp only [List.not_mem_nil, or_false] at h ⊢
      tauto
  · intro k hk
    unfold createProfileUser at hk
    rw [hasKey_pick] at hk
    simp only [Bool.and_eq_true, decide_eq_true_eq] at hk
    exact hk.1
  · intro k hk
    unfold createProfileUser
    rw [hasKey_pick, getProp_pick data userFields k hk]
    simp [hk]

/-- Witness of C6 at an organization profile with a name, a legal name and a website. -/
theorem createProfile_payload_witness :
    createProfileOrganization
        [("email", Val.str "a@example.com"), ("name", Val.str "Ada"),
         ("orgName", Val.str "Acme"), ("orgLegalName", Val.str "Acme Inc."),
         ("website", Val.str "https://acme.example")]
      = some [("website", Val.str "https://acme.example"), ("name", Val.str "Acme"),
              ("legalName", Val.str "Acme Inc.")] ∧
    getProp [("website", Val.str "https://acme.example"), ("name", Val.str "Acme"),
             ("legalName", Val.str "Acme Inc.")] "name"
      = getProp [("email", Val.str "a@example.com"), ("name", Val.str "Ada"),
         ("orgName", Val.str "Acme"), ("orgLegalName", Val.str "Acme Inc."),
         ("website", Val.str "https://acme.example")] "orgName" :=
  ⟨by decide,
   (createProfile_payload (sampleApi (Except.ok true) (Except.ok { redirect := none })
      (Except.ok ())) sampleEnv (initialState sampleProps)
      [("email", Val.str "a@example.com"), ("name", Val.str "Ada"),
       ("orgName", Val.str "Acme"), ("orgLegalName", Val.str "Acme Inc."),
       ("website", Val.str "https://acme.example")]
      [("website", Val.str "https://acme.example"), ("name", Val.str "Acme"),
       ("legalName", Val.str "Acme Inc.")] rfl (by decide)).2.1⟩

/-! ### `switchForm` and the displayed form -/

/-- C7, as stated, fails: after a `signIn` whose existence check was rejected with the message
`Network error`, the state has that error, and `switchForm` leaves it there; after a `signIn`
for an unknown email, `unknownEmailError` is true and stays true across `switchForm`. -/
theorem switchForm_keeps_errors :
    (switchForm
        (signIn (sampleApi (Except.error { message := some "Network error" })
          (Except.ok { redirect := none }) (Except.ok ()))
          sampleEnv (initialState sampleProps) "a@example.com").state
        "create-account").error = Val.str "Network error" ∧
    (switchForm
        (signIn (sampleApi (Except.ok false) (Except.ok { redirect := none }) (Except.ok ()))
          sampleEnv (initialState sampleProps) "new@example.com").state
        "create-account").unknownEmailError = true := by
  constructor
  · decide
  · decide

/-- C7, amended: for every flow state and every target form, `switchForm(target)` results in a
state whose form is the target and whose `error` and `unknownEmailError` are those of the
state before, as are all other fields; so the error is null and `unknownEmailError` false
after the switch exactly when they were before it. -/
theorem switchForm_changes_only_form (s : State) (target : String) :
    (switchForm s target).form = target ∧
    (switchForm s target).error = s.error ∧
    (switchForm s target).unknownEmailError = s.unknownEmailError ∧
    (switchForm s target).submitting = s.submitting ∧
    (switchForm s target).email = s.email ∧
    (switchForm s target).useRecoveryCodes = s.useRecoveryCodes :=
  ⟨rfl, rfl, rfl, rfl, rfl, rfl⟩

theorem foldl_switchForm_form (targets : List String) (s : State) :
    (targets.foldl switchForm s).form = targets.getLast?.getD s.form := by
  induction targets generalizing s with
  | nil => rfl
  | cons t ts ih =>
    rw [List.foldl_cons, ih]
    cases ts with
    | nil => rfl
    | cons u us =>
      rw [List.getLast?_cons_cons, List.getLast?_eq_getLast (u :: us) (List.cons_ne_nil u us)]
      rfl

/-- C8: when the caller supplies the `form` prop with one of its two values, the form chosen by
`render` is that prop after every sequence of `switchForm` calls, whatever the locally
switched value (the last target, or the starting form when there was no call); without the
prop the displayed form is the form of the local state. -/
theorem displayedForm_controlled (props : Props) (s : State) (targets : List String) :
    (∀ f, props.form = some f → f = "signin" ∨ f = "create-account" →
      displayedForm props (targets.foldl switchForm s) = f) ∧
    (props.form = none →
      displayedForm props (targets.foldl switchForm s) = (targets.foldl switchForm s).form) ∧
    (targets.foldl switchForm s).form = targets.getLast?.getD s.form := by
  refine ⟨?_, ?_, foldl_switchForm_form targets s⟩
  · intro f hf hval
    have hne : f ≠ "" := by
      rcases hval with h | h <;> (rw [h]; decide)
    simp [displayedForm, optOr, hf, hne]
  · intro hf
    simp [displayedForm, optOr, hf]

/-- Witness of C8: with `form = "signin"` supplied, a local switch to `create-account` does not
change the displayed form. -/
theorem displayedForm_controlled_witness :
    displayedForm { sampleProps with form := some "signin" }
      (["create-account"].foldl switchForm (initialState sampleProps)) = "signin" :=
  (displayedForm_controlled { sampleProps with form := some "signin" }
    (initialState sampleProps) ["create-account"]).1 "signin" rfl (Or.inl rfl)

/-! ### Failures -/

/-- C9, as stated, fails: when the existence check is rejected with an empty message, `signIn`
ends with the error `Server error`, not with the empty message. -/
theorem signIn_empty_failure_message :
    (signIn (sampleApi (Except.error { message := some "" }) (Except.ok { redirect := none })
        (Except.ok ())) sampleEnv (initialState sampleProps) "a@example.com").state.error
      = Val.str "Server error" ∧
    (signIn (sampleApi (Except.error { message := some "" }) (Except.ok { redirect := none })
        (Except.ok ())) sampleEnv (initialState sampleProps) "a@example.com").state.error
      ≠ Val.str "" := by
  constructor
  · decide
  · decide

/-- C9, amended: for every email and every flow state with `submitting = false`, if the
existence check or the sign-in request fails, then `signIn` ends with `submitting = false` and
performs no navigation; its `error` is the failure message verbatim when that message is not
empty, and `Server error` when the failure has no message or an empty one. -/
theorem signIn_failure (api : Api) (env : Env) (s : State) (email : String) (e : Err)
    (hs : s.submitting = false)
    (hf : api.checkUserExistence email = Except.error e ∨
      (api.checkUserExistence email = Except.ok true ∧
        api.signin email (getRedirectURL env) env.websiteUrl = Except.error e)) :
    (∀ M, e.message = some M → M ≠ "" → (signIn api env s email).state.error = Val.str M) ∧
    (e.message = none ∨ e.message = some "" →
      (signIn api env s email).state.error = Val.str "Server error") ∧
    (signIn api env s email).state.submitting = false ∧
    (∀ eff ∈ (signIn api env s email).effects, eff.isNavigation = false) := by
  have hrun : (signIn api env s email).state
        = signInCatch { s with submitting := true, error := Val.null } e ∧
      ∀ eff ∈ (signIn api env s email).effects, eff.isNavigation = false := by
    unfold signIn
    rcases hf with hc | ⟨hc, hr⟩
    · simp [hs, hc, Effect.isNavigation]
    · simp [hs, hc, hr, Effect.isNavigation]
  refine ⟨?_, ?_, ?_, hrun.2⟩
  · intro M hM hne
    rw [hrun.1]
    simp [signInCatch, optOr, hM, hne]
  · rintro (h | h) <;> (rw [hrun.1]; simp [signInCatch, optOr, h])
  · rw [hrun.1]
    rfl

/-- Witness of the amended C9 at a sign-in request rejected with `Too many requests`. -/
theorem signIn_failure_witness :
    (signIn (sampleApi (Except.ok true) (Except.error { message := some "Too many requests" })
        (Except.ok ())) sampleEnv (initialState sampleProps) "a@example.com").state.error
      = Val.str "Too many requests" :=
  (signIn_failure _ sampleEnv (initialState sampleProps) "a@example.com"
    { message := some "Too many requests" } rfl (Or.inr ⟨rfl, rfl⟩)).1
    "Too many requests" rfl (by decide)

/-- C10: for every profile input passed to `createProfile` with `submitting = false`, if the
create-user call succeeds the only navigation is `router.push` to `/signin/sent` with query
`email` equal to the `email` field of the input; if it fails with message `M` there is no
navigation and the flow ends with `error = M` and `submitting = false`. -/
theorem createProfile_outcome (api : Api) (env : Env) (s : State) (data : Obj)
    (hs : s.submitting = false) :
    (api.createUser (createProfileUser data) (createProfileOrganization data)
        (getRedirectURL env) env.websiteUrl = Except.ok () →
      (createProfile api env s data).effects.filter Effect.isNavigation
        = [Effect.routerPush "/signin/sent" [("email", getProp data "email")]]) ∧
    (∀ M, api.createUser (createProfileUser data) (createProfileOrganization data)
        (getRedirectURL env) env.websiteUrl = Except.error { message := some M } →
      (createProfile api env s data).effects.filter Effect.isNavigation = [] ∧
      (createProfile api env s data).state.error = Val.str M ∧
      (createProfile api env s data).state.submitting = false) := by
  have hemail : getProp (createProfileUser data) "email" = getProp data "email" :=
    getProp_pick data userFields "email" (by decide)
  constructor
  · intro hok
    unfold createProfile
    simp only [hs, Bool.false_eq_true, if_false, hok, createProfileNavigation, hemail]
    cases navigate api (Effect.routerPush "/signin/sent" [("email", getProp data "email")]) <;>
      simp [List.filter_cons, Effect.isNavigation]
  · intro M hfail
    unfold createProfile
    simp [hs, hfail, List.filter_cons, Effect.isNavigation, createProfileCatch, errMessage]

/-- Witness of C10 at a create-user call that succeeds. -/
theorem createProfile_outcome_witness :
    (createProfile (sampleApi (Except.ok true) (Except.ok { redirect := none }) (Except.ok ()))
        sampleEnv (initialState sampleProps)
        [("email", Val.str "a@example.com"), ("name", Val.str "Ada")]).effects.filter
        Effect.isNavigation
      = [Effect.routerPush "/signin/sent"
          [("email", getProp [("email", Val.str "a@example.com"), ("name", Val.str "Ada")]
            "email")]] :=
  (createProfile_outcome _ sampleEnv (initialState sampleProps)
    [("email", Val.str "a@example.com"), ("name", Val.str "Ada")] rfl).1 rfl

/-! ### The direct and the resumable form of the handlers agree -/

theorem signIn_eq_drive (api : Api) (env : Env) (s : State) (email : String) :
    drive api env 3 (signInStart s email)
      = { state := (signIn api env s email).state
          effects := (signIn api env s email).effects, next := none } := by
  unfold signIn signInStart
  by_cases hs : s.submitting = true
  · simp [hs, drive]
  · simp only [hs, if_false]
    cases hc : api.checkUserExistence email with
    | error e => simp [drive, outcome, resume, hc]
    | ok b =>
      cases b with
      | false => simp [drive, outcome, resume, hc]
      | true =>
        cases hr : api.signin email (getRedirectURL env) env.websiteUrl with
        | error e => simp [drive, outcome, resume, hc, hr]
        | ok R =>
          cases hn : navigate api (signInNavigation email R) with
          | error e => simp [drive, outcome, resume, hc, hr, hn]
          | ok u => simp [drive, outcome, resume, hc, hr, hn]

theorem createProfile_eq_drive (api : Api) (env : Env) (s : State) (data : Obj) :
    drive api env 2 (createProfileStart env s data)
      = { state := (createProfile api env s data).state
          effects := (createProfile api env s data).effects, next := none } := by
  unfold createProfile createProfileStart
  by_cases hs : s.submitting = true
  · simp [hs, drive]
  · simp only [hs, if_false]
    cases hc : api.createUser (createProfileUser data) (createProfileOrganization data)
      (getRedirectURL env) env.websiteUrl with
    | error e => simp [drive, outcome, resume, hc]
    | ok u =>
      cases hn : navigate api (createProfileNavigation (createProfileUser data)) with
      | error e => simp [drive, outcome, resume, hc, hn]
      | ok u2 => simp [drive, outcome, resume, hc, hn]

/-! ### Batches of one event -/

theorem step_eq (env : Env) (sys : Sys) (e : Event) :
    step env sys e =
      match e with
      | .signIn email =>
        ({ state := (signInStart sys.state email).state
           pending := sys.pending ++ (signInStart sys.state email).next.toList },
         (signInStart sys.state email).effects)
      | .createProfile data =>
        ({ state := (createProfileStart env sys.state data).state
           pending := sys.pending ++ (createProfileStart env sys.state data).next.toList },
         (createProfileStart env sys.state data).effects)
      | .settle i o =>
        match sys.pending[i]? with
        | none => (sys, [])
        | some awaited =>
          match resume env sys.state awaited o with
          | none => (sys, [])
          | some p =>
            ({ state := p.state, pending := sys.pending.eraseIdx i ++ p.next.toList },
             p.effects)
      | .switchForm form => ({ sys with state := switchForm sys.state form }, [])
      | .emailChange email =>
        ({ sys with state := { sys.state with email := email, unknownEmailError := false } },
         [])
      | .useRecoveryCodes =>
        ({ sys with state := { sys.state with useRecoveryCodes := some true } }, []) := by
  cases e <;> rfl

theorem batch_nil (env : Env) (sys : Sys) : batch env sys [] = (sys, []) := rfl

theorem batch_singleton (env : Env) (sys : Sys) (e : Event) :
    batch env sys [e] = step env sys e := by
  simp [batch, step]

/-! ### Serialization by the `submitting` guard -/

theorem serialized_init (props : Props) : Serialized (init props) := by
  simp [Serialized, init]

theorem resume_next_keeps_state (env : Env) (s : State) (awaited : Pending) (o : Settled)
    (p : Piece) (h : resume env s awaited o = some p) (hn : p.next ≠ none) : p.state = s := by
  cases awaited <;> cases o <;> simp [resume] at h <;>
    first
      | (subst h; first | rfl | exact absurd rfl hn)
      | (rename_i b; cases b <;> simp at h <;> subst h <;> first | rfl | exact absurd rfl hn)

theorem serialized_step (env : Env) (sys : Sys) (e : Event) (h : Serialized sys) :
    Serialized (step env sys e).1 := by
  obtain ⟨st, pend⟩ := sys
  obtain ⟨hlen, hsub⟩ := h
  simp only at hlen hsub
  cases e with
  | signIn email =>
    by_cases hs : st.submitting = true
    · simp [step_eq, signInStart, hs, Serialized, hlen]
    · have hnil : pend = [] := by
        by_contra hne
        exact hs (hsub hne)
      simp [step_eq, signInStart, hs, Serialized, hnil]
  | createProfile data =>
    by_cases hs : st.submitting = true
    · simp [step_eq, createProfileStart, hs, Serialized, hlen]
    · have hnil : pend = [] := by
        by_contra hne
        exact hs (hsub hne)
      simp [step_eq, createProfileStart, hs, Serialized, hnil]
  | settle i o =>
    simp only [step_eq]
    cases hget : pend[i]? with
    | none => exact ⟨hlen, hsub⟩
    | some awaited =>
      simp only []
      cases hres : resume env st awaited o with
      | none => exact ⟨hlen, hsub⟩
      | some p =>
        simp only []
        have hpend : pend = [awaited] ∧ i = 0 := by
          match pend, hlen, hget with
          | [a], _, hget =>
            cases i with
            | zero => simp at hget; simp [hget]
            | succ n => simp at hget
          | [], _, hget => simp at hget
          | _ :: _ :: _, hlen, _ => simp at hlen
        obtain ⟨hp, hi⟩ := hpend
        subst hp hi
        have hsubm : st.submitting = true := hsub (by simp)
        cases hnext : p.next with
        | none => simp [Serialized, hnext]
        | some q =>
          have hstate := resume_next_keeps_state env st awaited o p hres (by simp [hnext])
          simp [Serialized, hnext, hstate, hsubm]
  | switchForm form => exact ⟨hlen, hsub⟩
  | emailChange email => exact ⟨hlen, hsub⟩
  | useRecoveryCodes => exact ⟨hlen, hsub⟩

theorem serialized_run (env : Env) (events : List Event) (sys : Sys) (h : Serialized sys) :
    Serialized (run env sys events) := by
  induction events generalizing sys with
  | nil => exact h
  | cons e es ih => exact ih _ (serialized_step env sys e h)

theorem inFlight_length_le (sys : Sys) : (inFlight sys).length ≤ sys.pending.length :=
  List.length_filter_le _ _

theorem resume_remote_call (env : Env) (s : State) (awaited : Pending) (o : Settled)
    (p : Piece) (h : resume env s awaited o = some p) (eff : Effect) (hmem : eff ∈ p.effects)
    (hremote : eff.isRemoteCall = true) :
    ∃ email, awaited = Pending.checkUserExistence email ∧ o = Settled.bool true ∧
      p.next = some (Pending.signin email) := by
  cases awaited with
  | checkUserExistence email =>
    cases o with
    | bool b =>
      cases b with
      | true => simp [resume] at h; subst h; exact ⟨email, rfl, rfl, rfl⟩
      | false => simp [resume] at h; subst h; simp at hmem
    | response r => simp [resume] at h
    | unit => simp [resume] at h
    | rejected e =>
      simp [resume] at h; subst h
      simp at hmem; subst hmem; simp [Effect.isRemoteCall] at hremote
  | signin email =>
    cases o with
    | bool b => simp [resume] at h
    | response r =>
      simp [resume] at h; subst h
      simp at hmem; subst hmem
      have hnav := signInNavigation_isNavigation email r
      cases hx : signInNavigation email r <;>
        simp [hx, Effect.isRemoteCall, Effect.isNavigation] at hremote hnav
    | unit => simp [resume] at h
    | rejected e =>
      simp [resume] at h; subst h
      simp at hmem; subst hmem; simp [Effect.isRemoteCall] at hremote
  | signInRouter nav =>
    cases o <;> simp [resume] at h <;> subst h <;> simp at hmem <;> subst hmem <;>
      simp [Effect.isRemoteCall] at hremote
  | createUser user organization =>
    cases o <;> simp [resume] at h <;> subst h <;> simp at hmem <;> subst hmem <;>
      simp [Effect.isRemoteCall, createProfileNavigation] at hremote
  | createProfileRouter nav =>
    cases o <;> simp [resume] at h <;> subst h <;> simp at hmem <;> subst hmem <;>
      simp [Effect.isRemoteCall] at hremote

theorem step_first_remote_call (env : Env) (sys : Sys) (e : Event) (eff : Effect)
    (hmem : eff ∈ (step env sys e).2) (hremote : eff.isRemoteCall = true)
    (hfirst : eff.isSignInRequest = false) : sys.state.submitting = false := by
  cases e with
  | signIn email =>
    by_cases hs : sys.state.submitting = true
    · simp [step_eq, signInStart, hs] at hmem
    · simpa using hs
  | createProfile data =>
    by_cases hs : sys.state.submitting = true
    · simp [step_eq, createProfileStart, hs] at hmem
    · simpa using hs
  | settle i o =>
    simp only [step_eq] at hmem
    cases hget : sys.pending[i]? with
    | none => simp [hget] at hmem
    | some awaited =>
      cases hres : resume env sys.state awaited o with
      | none => simp [hget, hres] at hmem
      | some p =>
        simp only [hget, hres] at hmem
        obtain ⟨email, ha, ho, -⟩ := resume_remote_call env sys.state awaited o p hres eff hmem hremote
        subst ha ho
        simp [resume] at hres
        subst hres
        simp at hmem
        subst hmem
        simp [Effect.isSignInRequest] at hfirst
  | switchForm form => simp [step_eq] at hmem
  | emailChange email => simp [step_eq] at hmem
  | useRecoveryCodes => simp [step_eq] at hmem

theorem step_signin_request (env : Env) (sys : Sys) (e : Event) (eff : Effect)
    (hser : Serialized sys) (hmem : eff ∈ (step env sys e).2)
    (hreq : eff.isSignInRequest = true) :
    ∃ email, sys.pending = [Pending.checkUserExistence email] ∧
      e = Event.settle 0 (Settled.bool true) ∧
      (step env sys e).1.pending = [Pending.signin email] ∧
      sys.state.submitting = true := by
  have hremote : eff.isRemoteCall = true := by
    cases eff <;> first | rfl | simp [Effect.isSignInRequest] at hreq
  cases e with
  | signIn email =>
    by_cases hs : sys.state.submitting = true
    · simp [step_eq, signInStart, hs] at hmem
    · simp [step_eq, signInStart, hs] at hmem
      subst hmem
      simp [Effect.isSignInRequest] at hreq
  | createProfile data =>
    by_cases hs : sys.state.submitting = true
    · simp [step_eq, createProfileStart, hs] at hmem
    · simp [step_eq, createProfileStart, hs] at hmem
      subst hmem
      simp [Effect.isSignInRequest] at hreq
  | settle i o =>
    obtain ⟨st, pend⟩ := sys
    obtain ⟨hlen, hsub⟩ := hser
    simp only at hlen hsub
    simp only [step_eq] at hmem ⊢
    cases hget : pend[i]? with
    | none => simp [hget] at hmem
    | some awaited =>
      cases hres : resume env st awaited o with
      | none => simp [hget, hres] at hmem
      | some p =>
        simp only [hget, hres] at hmem ⊢
        obtain ⟨email, ha, ho, hnext⟩ :=
          resume_remote_call env st awaited o p hres eff hmem hremote
        have hpend : pend = [awaited] ∧ i = 0 := by
          match pend, hlen, hget with
          | [a], _, hget =>
            cases i with
            | zero => simp at hget; simp [hget]
            | succ n => simp at hget
          | [], _, hget => simp at hget
          | _ :: _ :: _, hlen, _ => simp at hlen
        obtain ⟨hp, hi⟩ := hpend
        subst hp hi ha ho
        exact ⟨email, rfl, rfl, by simp [hnext], hsub (by simp)⟩
  | switchForm form => simp [step_eq] at hmem
  | emailChange email => simp [step_eq] at hmem
  | useRecoveryCodes => simp [step_eq] at hmem

theorem serialized_runBatches (env : Env) (batches : List (List Event)) (sys : Sys)
    (hbatch : ∀ events ∈ batches, events.length ≤ 1) (h : Serialized sys) :
    Serialized (runBatches env sys batches) := by
  induction batches generalizing sys with
  | nil => exact h
  | cons events rest ih =>
    have hrest : ∀ evs ∈ rest, evs.length ≤ 1 := fun evs hmem =>
      hbatch evs (List.mem_cons_of_mem events hmem)
    have hlen : events.length ≤ 1 := hbatch events (List.mem_cons_self events rest)
    have hstep : Serialized (batch env sys events).1 := by
      match events, hlen with
      | [], _ => exact h
      | [e], _ =>
        rw [batch_singleton]
        exact serialized_step env sys e h
      | _ :: _ :: _, hlen => simp at hlen
    exact ih _ hrest hstep

/-- C3, as stated, fails. Two `signIn` calls inside one React batch both read the
`submitting = false` the batch started with, so two existence checks are started and both are
in flight. And after a single `signIn("known@example.com")`, when `submitting` is true, the
completion of the existence check with `true` starts a remote call, the sign-in request. -/
theorem double_submit_in_one_batch :
    (batch sampleEnv (init sampleProps)
        [Event.signIn "a@example.com", Event.signIn "b@example.com"]).2
      = [Effect.checkUserExistence "a@example.com",
         Effect.checkUserExistence "b@example.com"] ∧
    inFlight (batch sampleEnv (init sampleProps)
        [Event.signIn "a@example.com", Event.signIn "b@example.com"]).1
      = [Pending.checkUserExistence "a@example.com",
         Pending.checkUserExistence "b@example.com"] ∧
    (runBatches sampleEnv (init sampleProps)
        [[Event.signIn "known@example.com"]]).state.submitting = true ∧
    (batch sampleEnv
        (runBatches sampleEnv (init sampleProps) [[Event.signIn "known@example.com"]])
        [Event.settle 0 (Settled.bool true)]).2
      = [Effect.signin "known@example.com" "%2Fsignin" "https://opencollective.com"] ∧
    (Effect.signin "known@example.com" "%2Fsignin" "https://opencollective.com").isRemoteCall
      = true := by
  refine ⟨?_, ?_, ?_, ?_, ?_⟩ <;> decide

/-- C3, amended: take any sequence of events of the component (invocations of `signIn` and
`createProfile`, settlements of awaited calls, form switches, email edits) in which every
event is handled in a React batch of its own, so that the `setState` of one event is applied
before the next event reads `this.state`. In every state reached from the initial state, at
most one remote call started by the flow is in flight, and `submitting` is true for as long
as an invocation is suspended at a call. An existence check or a create-user call is only
ever started from a state with `submitting = false`; the sign-in request is started from a
state with `submitting = true`, by the invocation whose existence check has just returned
true, which is the only suspended invocation before and after. -/
theorem one_remote_call_in_flight (env : Env) (batches : List (List Event))
    (hbatch : ∀ events ∈ batches, events.length ≤ 1) :
    (inFlight (runBatches env (init env.props) batches)).length ≤ 1 ∧
    ((runBatches env (init env.props) batches).pending ≠ [] →
      (runBatches env (init env.props) batches).state.submitting = true) ∧
    (∀ e eff, eff ∈ (batch env (runBatches env (init env.props) batches) [e]).2 →
      eff.isRemoteCall = true → eff.isSignInRequest = false →
      (runBatches env (init env.props) batches).state.submitting = false) ∧
    (∀ e eff, eff ∈ (batch env (runBatches env (init env.props) batches) [e]).2 →
      eff.isSignInRequest = true →
      ∃ email,
        (runBatches env (init env.props) batches).pending
          = [Pending.checkUserExistence email] ∧
        e = Event.settle 0 (Settled.bool true) ∧
        (batch env (runBatches env (init env.props) batches) [e]).1.pending
          = [Pending.signin email] ∧
        (runBatches env (init env.props) batches).state.submitting = true) := by
  have hser := serialized_runBatches env batches (init env.props) hbatch
    (serialized_init env.props)
  refine ⟨?_, hser.2, ?_, ?_⟩
  · exact Nat.le_trans (inFlight_length_le _) hser.1
  · intro e eff hmem hremote hfirst
    rw [batch_singleton] at hmem
    exact step_first_remote_call env _ e eff hmem hremote hfirst
  · intro e eff hmem hreq
    rw [batch_singleton] at hmem ⊢
    exact step_signin_request env _ e eff hser hmem hreq

/-- Witness of the amended C3: two `signIn` calls in two batches; the second is dropped and
one existence check is in flight. -/
theorem one_remote_call_in_flight_witness :
    (∀ events ∈ [[Event.signIn "a@example.com"], [Event.signIn "b@example.com"]],
      events.length ≤ 1) ∧
    inFlight (runBatches sampleEnv (init sampleProps)
        [[Event.signIn "a@example.com"], [Event.signIn "b@example.com"]])
      = [Pending.checkUserExistence "a@example.com"] ∧
    (inFlight (runBatches sampleEnv (init sampleEnv.props)
        [[Event.signIn "a@example.com"], [Event.signIn "b@example.com"]])).length ≤ 1 :=
  ⟨by decide, by decide,
   (one_remote_call_in_flight sampleEnv
      [[Event.signIn "a@example.com"], [Event.signIn "b@example.com"]] (by decide)).1⟩

/-! ### `submitting` and the error fields after a completed invocation -/

theorem signIn_state_cases (api : Api) (env : Env) (s : State) (email : String)
    (hs : s.submitting = false) :
    ((∃ R, api.checkUserExistence email = Except.ok true ∧
        api.signin email (getRedirectURL env) env.websiteUrl = Except.ok R ∧
        navigate api (signInNavigation email R) = Except.ok ()) ∧
      (signIn api env s email).state = { s with submitting := true, error := Val.null }) ∨
    ((¬ ∃ R, api.checkUserExistence email = Except.ok true ∧
        api.signin email (getRedirectURL env) env.websiteUrl = Except.ok R ∧
        navigate api (signInNavigation email R) = Except.ok ()) ∧
      (signIn api env s email).state.submitting = false) := by
  unfold signIn
  simp only [hs, Bool.false_eq_true, if_false]
  cases hc : api.checkUserExistence email with
  | error e => right; simp [signInCatch]
  | ok b =>
    cases b with
    | false => right; simp
    | true =>
      cases hr : api.signin email (getRedirectURL env) env.websiteUrl with
      | error e => right; simp [signInCatch]
      | ok R =>
        cases hn : navigate api (signInNavigation email R) with
        | error e => right; simp [signInCatch, hn]
        | ok u => left; simp [hn]

theorem createProfile_state_cases (api : Api) (env : Env) (s : State) (data : Obj)
    (hs : s.submitting = false) :
    ((api.createUser (createProfileUser data) (createProfileOrganization data)
          (getRedirectURL env) env.websiteUrl = Except.ok () ∧
        navigate api (createProfileNavigation (createProfileUser data)) = Except.ok ()) ∧
      (createProfile api env s data).state = { s with submitting := true, error := Val.null }) ∨
    ((¬ (api.createUser (createProfileUser data) (createProfileOrganization data)
          (getRedirectURL env) env.websiteUrl = Except.ok () ∧
        navigate api (createProfileNavigation (createProfileUser data)) = Except.ok ())) ∧
      (createProfile api env s data).state.submitting = false) := by
  unfold createProfile
  simp only [hs, Bool.false_eq_true, if_false]
  cases hc : api.createUser (createProfileUser data) (createProfileOrganization data)
      (getRedirectURL env) env.websiteUrl with
  | error e => right; simp [createProfileCatch]
  | ok u =>
    cases hn : navigate api (createProfileNavigation (createProfileUser data)) with
    | error e => right; simp [createProfileCatch, hn]
    | ok u2 => left; simp [hn]

/-- C11, as stated, fails: a `signIn` whose existence check, sign-in request and navigation
all succeed, and a `createProfile` whose create-user call and navigation succeed, end with
`submitting = true`; in the resumable form, after the last settlement no call is pending and
`submitting` is still true. -/
theorem success_leaves_submitting :
    (signIn (sampleApi (Except.ok true) (Except.ok { redirect := none }) (Except.ok ()))
      sampleEnv (initialState sampleProps) "known@example.com").state.submitting = true ∧
    (createProfile (sampleApi (Except.ok true) (Except.ok { redirect := none }) (Except.ok ()))
      sampleEnv (initialState sampleProps)
      [("email", Val.str "a@example.com"), ("name", Val.str "Ada")]).state.submitting = true ∧
    (run sampleEnv (init sampleProps)
      [Event.signIn "known@example.com", Event.settle 0 (Settled.bool true),
       Event.settle 0 (Settled.response { redirect := none }),
       Event.settle 0 Settled.unit]).pending = [] ∧
    (run sampleEnv (init sampleProps)
      [Event.signIn "known@example.com", Event.settle 0 (Settled.bool true),
       Event.settle 0 (Settled.response { redirect := none }),
       Event.settle 0 Settled.unit]).state.submitting = true := by
  refine ⟨?_, ?_, ?_, ?_⟩ <;> decide

/-- C11, amended: after a `signIn` or `createProfile` invocation that started with
`submitting = false` has run to completion, `submitting` is false when the existence check
returned false or one of the awaited calls (remote call or navigation) failed; it is true
exactly when every awaited call succeeded, that is when the flow has navigated away. -/
theorem submitting_after_completion (api : Api) (env : Env) (s : State) (email : String)
    (data : Obj) (hs : s.submitting = false) :
    ((signIn api env s email).state.submitting = true ↔
      ∃ R, api.checkUserExistence email = Except.ok true ∧
        api.signin email (getRedirectURL env) env.websiteUrl = Except.ok R ∧
        navigate api (signInNavigation email R) = Except.ok ()) ∧
    ((createProfile api env s data).state.submitting = true ↔
      (api.createUser (createProfileUser data) (createProfileOrganization data)
          (getRedirectURL env) env.websiteUrl = Except.ok () ∧
        navigate api (createProfileNavigation (createProfileUser data)) = Except.ok ())) := by
  constructor
  · rcases signIn_state_cases api env s email hs with ⟨h, hst⟩ | ⟨h, hst⟩
    · simp [hst, h]
    · simp [hst, h]
  · rcases createProfile_state_cases api env s data hs with ⟨h, hst⟩ | ⟨h, hst⟩
    · simp [hst, h]
    · simp [hst, h]

/-- Witness of the amended C11 at an unknown email: `submitting` is false afterwards. -/
theorem submitting_after_completion_witness :
    (initialState sampleProps).submitting = false ∧
    ¬ (signIn (sampleApi (Except.ok false) (Except.ok { redirect := none }) (Except.ok ()))
      sampleEnv (initialState sampleProps) "new@example.com").state.submitting = true :=
  ⟨rfl, fun h =>
    absurd ((submitting_after_completion
      (sampleApi (Except.ok false) (Except.ok { redirect := none }) (Except.ok ()))
      sampleEnv (initialState sampleProps) "new@example.com" [] rfl).1.mp h)
      (by rintro ⟨R, hc, -, -⟩; simp [sampleApi] at hc)⟩

/-- C12, as stated, fails: from the state left by a `signIn` for an unknown email
(`submitting = false`, `unknownEmailError = true`), a `signIn` and a `createProfile` whose
calls all succeed end with `unknownEmailError` still true; and when the navigation after a
successful sign-in request is rejected, `signIn` ends with a non-null `error`. -/
theorem success_keeps_unknownEmailError :
    (signIn (sampleApi (Except.ok false) (Except.ok { redirect := none }) (Except.ok ()))
      sampleEnv (initialState sampleProps) "new@example.com").state.submitting = false ∧
    (signIn (sampleApi (Except.ok true) (Except.ok { redirect := none }) (Except.ok ()))
      sampleEnv
      (signIn (sampleApi (Except.ok false) (Except.ok { redirect := none }) (Except.ok ()))
        sampleEnv (initialState sampleProps) "new@example.com").state
      "new@example.com").state.unknownEmailError = true ∧
    (createProfile (sampleApi (Except.ok true) (Except.ok { redirect := none }) (Except.ok ()))
      sampleEnv
      (signIn (sampleApi (Except.ok false) (Except.ok { redirect := none }) (Except.ok ()))
        sampleEnv (initialState sampleProps) "new@example.com").state
      [("email", Val.str "new@example.com")]).state.unknownEmailError = true ∧
    (signIn
      { checkUserExistence := fun _ => Except.ok true
        signin := fun _ _ _ => Except.ok { redirect := none }
        createUser := fun _ _ _ _ => Except.ok ()
        routerReplace := fun _ => Except.ok ()
        routerPush := fun _ _ => Except.error { message := some "Route change aborted" } }
      sampleEnv (initialState sampleProps) "known@example.com").state.error
      = Val.str "Route change aborted" := by
  refine ⟨?_, ?_, ?_, ?_⟩ <;> decide

/-- C12, amended: for every flow state with `submitting = false`, a `signIn` whose existence
check returns true and whose sign-in request and navigation succeed, and a `createProfile`
whose create-user call and navigation succeed, each end in a state with `error = null` and
with `unknownEmailError` as it was before the invocation. -/
theorem success_resets_error_only (api : Api) (env : Env) (s : State) (email : String)
    (data : Obj) (hs : s.submitting = false) :
    (∀ R, api.checkUserExistence email = Except.ok true →
      api.signin email (getRedirectURL env) env.websiteUrl = Except.ok R →
      navigate api (signInNavigation email R) = Except.ok () →
      (signIn api env s email).state.error = Val.null ∧
      (signIn api env s email).state.unknownEmailError = s.unknownEmailError) ∧
    (api.createUser (createProfileUser data) (createProfileOrganization data)
        (getRedirectURL env) env.websiteUrl = Except.ok () →
      navigate api (createProfileNavigation (createProfileUser data)) = Except.ok () →
      (createProfile api env s data).state.error = Val.null ∧
      (createProfile api env s data).state.unknownEmailError = s.unknownEmailError) := by
  constructor
  · intro R hc hr hn
    rcases signIn_state_cases api env s email hs with ⟨-, hst⟩ | ⟨h, -⟩
    · simp [hst]
    · exact absurd ⟨R, hc, hr, hn⟩ h
  · intro hc hn
    rcases createProfile_state_cases api env s data hs with ⟨-, hst⟩ | ⟨h, -⟩
    · simp [hst]
    · exact absurd ⟨hc, hn⟩ h

/-- Witness of the amended C12 at a `signIn` that succeeds from a state with an error left by
an earlier failure. -/
theorem success_resets_error_only_witness :
    (signIn (sampleApi (Except.error { message := some "Network error" })
      (Except.ok { redirect := none }) (Except.ok ()))
      sampleEnv (initialState sampleProps) "known@example.com").state.error
      = Val.str "Network error" ∧
    (signIn (sampleApi (Except.ok true) (Except.ok { redirect := none }) (Except.ok ()))
      sampleEnv
      (signIn (sampleApi (Except.error { message := some "Network error" })
        (Except.ok { redirect := none }) (Except.ok ()))
        sampleEnv (initialState sampleProps) "known@example.com").state
      "known@example.com").state.error = Val.null :=
  ⟨by decide,
   ((success_resets_error_only
      (sampleApi (Except.ok true) (Except.ok { redirect := none }) (Except.ok ()))
      sampleEnv
      (signIn (sampleApi (Except.error { message := some "Network error" })
        (Except.ok { redirect := none }) (Except.ok ()))
        sampleEnv (initialState sampleProps) "known@example.com").state
      "known@example.com" [] (by decide)).1 { redirect := none } rfl rfl rfl).1⟩

/-! ### Construction, mounting and `render` -/

theorem signIn_effects_head (api : Api) (env : Env) (s : State) (email : String)
    (hs : s.submitting = false) :
    (signIn api env s email).effects.head? = some (Effect.checkUserExistence email) := by
  unfold signIn
  simp only [hs, Bool.false_eq_true, if_false]
  cases api.checkUserExistence email with
  | error e => rfl
  | ok b =>
    cases b with
    | false => rfl
    | true =>
      simp only []
      cases api.signin email (getRedirectURL env) env.websiteUrl with
      | error e => rfl
      | ok R =>
        simp only []
        cases navigate api (signInNavigation email R) <;> rfl

/-- C13: on mount the flow invokes `signIn` exactly once, with the `email` prop as argument,
if and only if the `email` prop is provided (a non-empty string) and `isEmail` accepts it;
that invocation starts with the existence check for this email. When the `email` prop is
absent, whatever `defaultEmail` is, or empty, or not accepted by `isEmail`, mounting invokes
nothing, issues no remote call and leaves the initial state. -/
theorem mount_auto_signIn (isEmail : String → Bool) (api : Api) (env : Env) :
    (∀ e, env.props.email = some e → e ≠ "" → isEmail e = true →
      (mount isEmail api env).signInCalls = [e] ∧
      (mount isEmail api env).effects.head? = some (Effect.checkUserExistence e)) ∧
    ((env.props.email = none ∨
        ∃ e, env.props.email = some e ∧ (e = "" ∨ isEmail e = false)) →
      (mount isEmail api env).signInCalls = [] ∧
      (mount isEmail api env).effects = [] ∧
      (mount isEmail api env).state = initialState env.props) ∧
    ((mount isEmail api env).signInCalls ≠ [] ↔
      ∃ e, env.props.email = some e ∧ e ≠ "" ∧ isEmail e = true) ∧
    (isEmail "" = false →
      ((mount isEmail api env).signInCalls ≠ [] ↔
        ∃ e, env.props.email = some e ∧ isEmail e = true)) := by
  have hiff : (mount isEmail api env).signInCalls ≠ [] ↔
      ∃ e, env.props.email = some e ∧ e ≠ "" ∧ isEmail e = true := by
    cases he : env.props.email with
    | none => simp [mount, componentDidMount, he]
    | some e =>
      by_cases hne : e = ""
      · simp [mount, componentDidMount, he, optTruthy, hne]
      · by_cases hvalid : isEmail e = true
        · simp [mount, componentDidMount, he, optTruthy, hne, hvalid]
        · simp [mount, componentDidMount, he, optTruthy, hne, hvalid]
  refine ⟨?_, ?_, hiff, ?_⟩
  · intro e he hne hvalid
    have hhead := signIn_effects_head api env (initialState env.props) e rfl
    simp [mount, componentDidMount, he, optTruthy, hne, hvalid, hhead]
  · rintro (h | ⟨e, he, h | h⟩)
    · simp [mount, componentDidMount, h]
    · simp [mount, componentDidMount, he, optTruthy, h]
    · simp [mount, componentDidMount, he, h]
  · intro hempty
    rw [hiff]
    constructor
    · rintro ⟨e, he, -, hvalid⟩
      exact ⟨e, he, hvalid⟩
    · rintro ⟨e, he, hvalid⟩
      refine ⟨e, he, ?_, hvalid⟩
      intro hee
      rw [hee, hempty] at hvalid
      exact Bool.noConfusion hvalid

/-- C14: for every pair of submitted values of the two-factor form, when a recovery code is
submitted the handler calls `submitRecoveryCode` with exactly that code and, on success,
navigates with `router.replace` to `/[slug]/admin/two-factor-auth` with `slug` equal to the
slug of the account returned by the callback (on failure it does not navigate); when no
recovery code is submitted it calls `submitTwoFactorAuthenticatorCode` with exactly the
two-factor code and does not navigate; every submit calls exactly one of the two callbacks. -/
theorem twoFactorOnSubmit_calls_one_callback (props : TwoFactorCallbacks)
    (values : TwoFactorValues) :
    (values.recoveryCode ≠ "" →
      (∀ slug, props.submitRecoveryCode values.recoveryCode = Except.ok slug →
        twoFactorOnSubmit props values
          = [TwoFactorEffect.submitRecoveryCode values.recoveryCode,
             TwoFactorEffect.routerReplace "/[slug]/admin/two-factor-auth"
               [("slug", Val.str slug)]]) ∧
      (∀ e, props.submitRecoveryCode values.recoveryCode = Except.error e →
        twoFactorOnSubmit props values
          = [TwoFactorEffect.submitRecoveryCode values.recoveryCode])) ∧
    (values.recoveryCode = "" →
      twoFactorOnSubmit props values
        = [TwoFactorEffect.submitTwoFactorAuthenticatorCode
            values.twoFactorAuthenticatorCode]) ∧
    ((twoFactorOnSubmit props values).filter TwoFactorEffect.isCallback).length = 1 := by
  refine ⟨?_, ?_, ?_⟩
  · intro hne
    constructor
    · intro slug hok
      simp [twoFactorOnSubmit, hne, hok]
    · intro e herr
      simp [twoFactorOnSubmit, hne, herr]
  · intro hempty
    simp [twoFactorOnSubmit, hempty]
  · unfold twoFactorOnSubmit
    by_cases hne : values.recoveryCode = ""
    · simp [hne, TwoFactorEffect.isCallback]
    · simp only [ne_eq, hne, not_false_eq_true, if_true]
      cases props.submitRecoveryCode values.recoveryCode <;>
        simp [List.filter_cons, TwoFactorEffect.isCallback]

/-- C15: for every props value, the initial state has `form` equal to `defaultForm` when it is
given (a non-empty string) and `signin` otherwise, `email` equal to the `email` prop if
provided (non-empty), else to `defaultEmail` if provided, else to the empty string, and
`submitting = false`, `error = null`, `unknownEmailError = false`,
`useRecoveryCodes = null`. -/
theorem initialState_from_props (props : Props) :
    (∀ f, props.defaultForm = some f → f ≠ "" → (initialState props).form = f) ∧
    (props.defaultForm = none ∨ props.defaultForm = some "" →
      (initialState props).form = "signin") ∧
    (∀ e, props.email = some e → e ≠ "" → (initialState props).email = e) ∧
    (props.email = none ∨ props.email = some "" →
      (∀ d, props.defaultEmail = some d → (initialState props).email = d) ∧
      (props.defaultEmail = none → (initialState props).email = "")) ∧
    (initialState props).submitting = false ∧
    (initialState props).error = Val.null ∧
    (initialState props).unknownEmailError = false ∧
    (initialState props).useRecoveryCodes = none := by
  refine ⟨?_, ?_, ?_, ?_, rfl, rfl, rfl, rfl⟩
  · intro f hf hne
    simp [initialState, optOr, hf, hne]
  · rintro (h | h) <;> simp [initialState, optOr, h]
  · intro e he hne
    simp [initialState, optOr, he, hne]
  · rintro (h | h)
    · constructor
      · intro d hd
        by_cases hde : d = "" <;> simp [initialState, optOr, h, hd, hde]
      · intro hd
        simp [initialState, optOr, h, hd]
    · constructor
      · intro d hd
        by_cases hde : d = "" <;> simp [initialState, optOr, h, hd, hde]
      · intro hd
        simp [initialState, optOr, h, hd]

/-- C16: for every props value and flow state, `render` returns only the loading view when
the `email` prop is provided (non-empty) and neither `unknownEmailError` nor a truthy `error`
is set; otherwise it returns the column whose form is the two-factor box when
`enforceTwoFactorAuthForLoggedInUser` is set, else the create-account form when the displayed
form is `create-account`, else the sign-in form. -/
theorem render_view (props : Props) (s : State) :
    (optTruthy props.email = true ∧ s.unknownEmailError = false ∧ s.error.truthy = false →
      render props s = View.loading) ∧
    (¬ (optTruthy props.email = true ∧ s.unknownEmailError = false ∧ s.error.truthy = false) →
      (props.enforceTwoFactorAuthForLoggedInUser = true →
        render props s
          = View.column s.error.truthy (FormView.twoFactorAuthBoxes s.useRecoveryCodes)) ∧
      (props.enforceTwoFactorAuthForLoggedInUser = false →
        displayedForm props s = "create-account" →
        render props s = View.column s.error.truthy FormView.createProfile) ∧
      (props.enforceTwoFactorAuthForLoggedInUser = false →
        displayedForm props s ≠ "create-account" →
        render props s = View.column s.error.truthy FormView.signIn)) := by
  constructor
  · rintro ⟨h1, h2, h3⟩
    simp [render, hasError, h1, h2, h3]
  · intro hnot
    have hcond : (optTruthy props.email && !hasError s) = false := by
      by_cases h1 : optTruthy props.email = true
      · by_cases h2 : s.unknownEmailError = true
        · simp [hasError, h2]
        · by_cases h3 : s.error.truthy = true
          · simp [hasError, h3]
          · simp only [Bool.not_eq_true] at h2 h3
            exact absurd ⟨h1, h2, h3⟩ hnot
      · simp only [Bool.not_eq_true] at h1
        simp [h1]
    refine ⟨?_, ?_, ?_⟩
    · intro he
      simp [render, hcond, he]
    · intro he hd
      simp [render, hcond, he, hd]
    · intro he hd
      simp [render, hcond, he, hd]

/-- Worked input for C13: mounted with `email = "auto@example.com"`, the flow calls `signIn`
once with that email and starts the existence check; mounted with only `defaultEmail`, it
calls nothing. -/
theorem mount_auto_signIn_witness :
    (mount sampleIsEmail
        (sampleApi (Except.ok true) (Except.ok { redirect := none }) (Except.ok ()))
        { sampleEnv with props := { sampleProps with email := some "auto@example.com" } }
      ).signInCalls = ["auto@example.com"] ∧
    (mount sampleIsEmail
        (sampleApi (Except.ok true) (Except.ok { redirect := none }) (Except.ok ()))
        { sampleEnv with
          props := { sampleProps with defaultEmail := some "auto@example.com" } }
      ).signInCalls = [] :=
  ⟨((mount_auto_signIn sampleIsEmail _
      { sampleEnv with props := { sampleProps with email := some "auto@example.com" } }).1
      "auto@example.com" rfl (by decide) (by decide)).1,
   ((mount_auto_signIn sampleIsEmail _
      { sampleEnv with
        props := { sampleProps with defaultEmail := some "auto@example.com" } }).2.1
      (Or.inl rfl)).1⟩

end SignInOrJoinFree

namespace SendMoneyToCollectiveBtn

open SignInOrJoinFree (Val Obj pick hasKey getProp Err errMessage)

/-- C17: `onClick` sends nothing to the mutation unless there is a logged-in user who can edit
`fromCollective`, the account data is loaded and the account has at least one payment method.
When the user is missing, cannot edit, or the account data is absent, `onClick` returns with
the state unchanged; when the payment-method list is missing or empty, it sets the error
`We couldn't find a payment method to make this transaction`, leaves `loading` as it is and
sends nothing. -/
theorem onClick_guards (sendMoneyToCollective : Order → Except Err Unit) (props : Props)
    (s : State) :
    ((props.LoggedInUser = none ∨
        (∃ user, props.LoggedInUser = some user ∧
          user.canEditCollective props.fromCollective = false) ∨
        getAccount props.data = none) →
      onClick sendMoneyToCollective props s = { state := s, mutations := [] }) ∧
    (∀ user account, props.LoggedInUser = some user →
      user.canEditCollective props.fromCollective = true →
      getAccount props.data = some account →
      (account.paymentMethods = none ∨ account.paymentMethods = some []) →
      onClick sendMoneyToCollective props s
        = { state :=
              { loading := s.loading
                error := Val.str "We couldn't find a payment method to make this transaction" }
            mutations := [] }) ∧
    ((onClick sendMoneyToCollective props s).mutations ≠ [] →
      ∃ user account first rest, props.LoggedInUser = some user ∧
        user.canEditCollective props.fromCollective = true ∧
        getAccount props.data = some account ∧
        account.paymentMethods = some (first :: rest)) := by
  refine ⟨?_, ?_, ?_⟩
  · rintro (h | ⟨user, hu, hc⟩ | h)
    · simp [onClick, h]
    · simp [onClick, hu, hc]
    · unfold onClick
      cases props.LoggedInUser with
      | none => rfl
      | some user => simp [h]
  · intro user account hu hc ha hpm
    have hget : getPaymentMethods props.data = account.paymentMethods := by
      simp [getPaymentMethods, ha]
    rcases hpm with h | h
    · simp [onClick, hu, hc, ha, hget, h, noPaymentMethodError]
    · simp [onClick, hu, hc, ha, hget, h, noPaymentMethodError]
  · intro hsent
    unfold onClick at hsent
    cases hu : props.LoggedInUser with
    | none => simp [hu] at hsent
    | some user =>
      simp only [hu] at hsent
      cases hc : user.canEditCollective props.fromCollective with
      | false => simp [hc] at hsent
      | true =>
        cases ha : getAccount props.data with
        | none => simp [hc, ha] at hsent
        | some account =>
          have hget : getPaymentMethods props.data = account.paymentMethods := by
            simp [getPaymentMethods, ha]
          cases hpm : account.paymentMethods with
          | none => simp [hc, ha, hget, hpm] at hsent
          | some methods =>
            cases methods with
            | nil => simp [hc, ha, hget, hpm] at hsent
            | cons first rest => exact ⟨user, account, first, rest, rfl, hc, rfl, hpm⟩

theorem onClick_of_guards (sendMoneyToCollective : Order → Except Err Unit) (props : Props)
    (s : State) (user : User) (account : Account) (first : PaymentMethod)
    (rest : List PaymentMethod) (hu : props.LoggedInUser = some user)
    (hc : user.canEditCollective props.fromCollective = true)
    (ha : getAccount props.data = some account)
    (hpm : account.paymentMethods = some (first :: rest)) :
    onClick sendMoneyToCollective props s
      = match sendMoneyToCollective (buildOrder props first) with
        | .ok _ =>
          { state := { error := s.error, loading := Val.bool false }
            mutations := [buildOrder props first] }
        | .error e =>
          { state := { error := errMessage e, loading := Val.bool false }
            mutations := [buildOrder props first] } := by
  have hget : getPaymentMethods props.data = some (first :: rest) := by
    simp [getPaymentMethods, ha, hpm]
  unfold onClick
  simp only [hu, hc, ha, hget]
  cases sendMoneyToCollective (buildOrder props first) <;> rfl

/-- C18: for every props value that passes the guards of `onClick`, exactly one order is sent
to the mutation; its `amount` has `valueInCents` equal to the `amount` prop and `currency`
equal to the `currency` prop, its `toAccount` and `fromAccount` have no key besides `slug`,
with the slug of `toCollective` and of `fromCollective`, its `paymentMethod.id` is the id of
the first payment method of the account, its `frequency` is `ONETIME` and `isBalanceTransfer`
is true. When the mutation succeeds the state ends with `loading = false`; when it fails with
message `M` the state ends with `error = M` and `loading = false`. -/
theorem onClick_order (sendMoneyToCollective : Order → Except Err Unit) (props : Props)
    (s : State) (user : User) (account : Account) (first : PaymentMethod)
    (rest : List PaymentMethod) (hu : props.LoggedInUser = some user)
    (hc : user.canEditCollective props.fromCollective = true)
    (ha : getAccount props.data = some account)
    (hpm : account.paymentMethods = some (first :: rest)) :
    ∃ order, (onClick sendMoneyToCollective props s).mutations = [order] ∧
      order.amount.valueInCents = props.amount ∧
      order.amount.currency = props.currency ∧
      (∀ k, hasKey order.toAccount k = true → k = "slug") ∧
      hasKey order.toAccount "slug" = hasKey props.toCollective "slug" ∧
      getProp order.toAccount "slug" = getProp props.toCollective "slug" ∧
      (∀ k, hasKey order.fromAccount k = true → k = "slug") ∧
      hasKey order.fromAccount "slug" = hasKey props.fromCollective "slug" ∧
      getProp order.fromAccount "slug" = getProp props.fromCollective "slug" ∧
      order.paymentMethod.id = first.id ∧
      order.frequency = "ONETIME" ∧
      order.isBalanceTransfer = true ∧
      order.description = props.description ∧
      (sendMoneyToCollective order = Except.ok () →
        (onClick sendMoneyToCollective props s).state.loading = Val.bool false) ∧
      (∀ M, sendMoneyToCollective order = Except.error { message := some M } →
        (onClick sendMoneyToCollective props s).state.error = Val.str M ∧
        (onClick sendMoneyToCollective props s).state.loading = Val.bool false) := by
  have hrun := onClick_of_guards sendMoneyToCollective props s user account first rest
    hu hc ha hpm
  have hkeys : ∀ (o : Obj) (k : String), hasKey (pick o ["slug"]) k = true → k = "slug" := by
    intro o k hk
    rw [SignInOrJoinFree.hasKey_pick] at hk
    simp only [Bool.and_eq_true, decide_eq_true_eq, List.mem_singleton] at hk
    exact hk.1
  have hhas : ∀ o : Obj, hasKey (pick o ["slug"]) "slug" = hasKey o "slug" := by
    intro o
    rw [SignInOrJoinFree.hasKey_pick]
    simp
  have hget : ∀ o : Obj, getProp (pick o ["slug"]) "slug" = getProp o "slug" := fun o =>
    SignInOrJoinFree.getProp_pick o ["slug"] "slug" (by simp)
  refine ⟨buildOrder props first, ?_, rfl, rfl, hkeys _, hhas _, hget _, hkeys _, hhas _,
    hget _, rfl, rfl, rfl, rfl, ?_, ?_⟩
  · rw [hrun]
    cases sendMoneyToCollective (buildOrder props first) <;> rfl
  · intro hok
    rw [hrun, hok]
  · intro M hfail
    rw [hrun, hfail]
    exact ⟨rfl, rfl⟩

/-- Witness of C18 at a transfer of 1000 USD cents whose mutation succeeds: one order is sent,
and the state ends with `loading = false`. -/
theorem onClick_order_witness :
    (onClick (fun _ => Except.ok ())
        (sampleProps (some [{ id := "pm-1" }, { id := "pm-2" }])) initialState).mutations
      = [{ amount := { valueInCents := 1000, currency := "USD" }
           toAccount := [("slug", Val.str "to-collective")]
           fromAccount := [("slug", Val.str "from-collective")]
           description := none
           paymentMethod := { id := "pm-1" }
           frequency := "ONETIME"
           isBalanceTransfer := true }] ∧
    ∃ order, (onClick (fun _ => Except.ok ())
        (sampleProps (some [{ id := "pm-1" }, { id := "pm-2" }])) initialState).mutations
        = [order] ∧ order.amount.valueInCents = 1000 :=
  ⟨by decide,
   match onClick_order (fun _ => Except.ok ())
      (sampleProps (some [{ id := "pm-1" }, { id := "pm-2" }])) initialState
      { canEditCollective := fun _ => true }
      { paymentMethods := some [{ id := "pm-1" }, { id := "pm-2" }] }
      { id := "pm-1" } [{ id := "pm-2" }] rfl rfl rfl rfl with
   | ⟨order, hsent, hvalue, _⟩ => ⟨order, hsent, hvalue⟩⟩

end SendMoneyToCollectiveBtn

namespace TopBar

/-- C19: `onClickOutside` never opens the mobile menu. For every state and click it assigns
`false` to `showMobileMenu` exactly when the menu is shown, the element reference exists and
the click target is not contained in it, and otherwise leaves the state unchanged without
calling `setState`; `toggleMobileMenu` applied twice gives back the starting state. -/
theorem onClickOutside_never_opens (ref : Option Element) (s : State) (target : Nat) :
    ((onClickOutside ref s target).assigned = [false] ↔
      (s.showMobileMenu = true ∧
        ∃ element, ref = some element ∧ element.contains target = false)) ∧
    ((s.showMobileMenu = true ∧
        ∃ element, ref = some element ∧ element.contains target = false) →
      (onClickOutside ref s target).state.showMobileMenu = false) ∧
    (¬ (s.showMobileMenu = true ∧
        ∃ element, ref = some element ∧ element.contains target = false) →
      onClickOutside ref s target = { state := s, assigned := [] }) ∧
    ((onClickOutside ref s target).state.showMobileMenu = true → s.showMobileMenu = true) ∧
    toggleMobileMenu (toggleMobileMenu s) = s := by
  have htoggle : toggleMobileMenu (toggleMobileMenu s) = s := by
    cases s with
    | mk b => cases b <;> rfl
  cases ref with
  | none => simp [onClickOutside, htoggle]
  | some element =>
    cases hshow : s.showMobileMenu <;> cases hin : element.contains target <;>
      simp [onClickOutside, hshow, hin, htoggle]

end TopBar
